import Mathlib

/-!
Verification development for `dts/examples/tcn.py`.

The script is straight-line orchestration code around external library calls
(dataset loading, windowing, Keras model building/fitting/evaluation).  We
embed it shallowly: library calls are fields of an `Env` record returning
`Except Err _` values, arrays and models are opaque tokens, and the script
body `main` is translated statement-by-statement into a writer/except monad
`M` that records a trace of parameter-dictionary accesses and library-call
events (with their arguments and results).  Properties of the script are then
theorems about `run p env : Except Err MainResult × List Event`.
-/

set_option linter.unusedVariables false

namespace DTS

/-- Opaque token standing for a scalar value produced by the libraries. -/
structure Val where
  tok : Nat
deriving DecidableEq, Repr

/-- Opaque token for the fitted scaler returned by `load_data`. -/
structure Scaler where
  tok : Nat
deriving DecidableEq, Repr

/-- Symbolic numpy arrays: opaque tokens produced by library calls, plus the
two slicing operations the script itself applies (`y[:, :, 1:]` on line 80/89
and `y[:, :, 0]` on line 81/90). -/
inductive Arr where
  | raw (tok : Nat)
  | sliceRestFeatures (a : Arr)
  | sliceFirstFeature (a : Arr)
deriving DecidableEq, Repr

/-- Opaque token for the Keras model object. -/
structure Model where
  tok : Nat
deriving DecidableEq, Repr

/-- Opaque token for the Keras `History` object returned by `fit`. -/
structure History where
  tok : Nat
deriving DecidableEq, Repr

/-- A Python exception: either one raised inside a library call (opaque
token), or a TypeError raised by the script's own `trend[1]` subscript. -/
inductive Err where
  | lib (tok : Nat)
  | pyTypeError (msg : String)
deriving DecidableEq, Repr

/-- Value of the Python variable `trend`: `None`, the pair-like object
returned in `data['trend']`, or the windowed array `y_trend_test`
(line 106). -/
inductive TrendVar where
  | noneV
  | pairV (t0 t1 : Arr)
  | arrV (a : Arr)
deriving DecidableEq, Repr

/-- The two dataset modules the adapter can pick (lines 42-45). -/
inductive DatasetId where
  | gefcom2014
  | uci_single_households
deriving DecidableEq, Repr

/-- The parameter mapping `params = vars(args)` (line 35), with the fields the
script reads.  Types follow the CLI values: names/strings, booleans, integer
sizes, rational learning rate and regularisation weights. -/
structure Params where
  dataset : String
  train : Bool
  detrend : Bool
  exogenous : Bool
  input_sequence_length : Nat
  output_sequence_length : Nat
  layers : Nat
  out_channels : Nat
  kernel_size : Nat
  dilation : Nat
  l2_reg : Rat
  tcn_type : String
  load : Option String
  learning_rate : Rat
  batch_size : Nat
  epochs : Nat
  grid_search : Bool
  observer : String
  add_config : Option String
deriving DecidableEq, Repr

/-- Arguments of `dataset.load_data(...)` (lines 47-53). -/
structure LoadArgs where
  datasetId : DatasetId
  fill_nan : String
  preprocessing : Bool
  split_type : String
  is_train : Bool
  detrend : Bool
  exogenous_vars : Bool
  use_prebuilt : Bool
deriving DecidableEq, Repr

/-- The dictionary returned by `load_data` (line 54 unpacks these keys). -/
structure LoadResult where
  scaler : Scaler
  train : Arr
  test : Arr
  trend : TrendVar
deriving DecidableEq, Repr

/-- Arguments of `get_rnn_inputs(...)` (lines 58, 84, 92, 102). -/
structure RnnArgs where
  data : Arr
  window_size : Nat
  horizon : Nat
  shuffle : Bool
  multivariate_output : Bool
deriving DecidableEq, Repr

/-- The `l2(c)` regularizer object (lines 72-73). -/
structure L2Reg where
  c : Rat
deriving DecidableEq, Repr

/-- Arguments of the `TCNModel(...)` constructor (lines 68-77). -/
structure TCNArgs where
  layers : Nat
  filters : Nat
  kernel_size : Nat
  kernel_init : String
  kernel_regularizer : L2Reg
  bias_regularizer : L2Reg
  dilation_rate : Nat
  use_bias : Bool
  return_sequence : Bool
  tcn_type : String
deriving DecidableEq, Repr

/-- Arguments of `tcn.build_model(...)` (lines 108-111). -/
structure BuildArgs where
  input_shape : Nat × Nat
  horizon : Nat
  conditions_shape : Option (Nat × Nat)
  use_final_dense : Bool
deriving DecidableEq, Repr

/-- An entry of a Keras metrics list: either a metric function (carrying its
`__name__`) or a plain string (line 159 distinguishes the two). -/
inductive Metric where
  | pyFunc (dunderName : String)
  | pyStr (s : String)
deriving DecidableEq, Repr

/-- `m.__name__ if not isinstance(m, str) else m` (line 159). -/
def metricName : Metric → String
  | .pyFunc n => n
  | .pyStr s => s

/-- The `Adam(params['learning_rate'])` optimizer object (line 117). -/
structure Optimizer where
  learning_rate : Rat
deriving DecidableEq, Repr

/-- Arguments of `model.compile(...)` (line 118). -/
structure CompileArgs where
  optimizer : Optimizer
  loss : List String
  metrics : List Metric
deriving DecidableEq, Repr

/-- The `EarlyStopping(patience=50, monitor='val_loss')` callback (line 119). -/
inductive Callback where
  | earlyStopping (patience : Nat) (monitor : String)
deriving DecidableEq, Repr

/-- The first positional argument of `model.fit`: either `X_train` alone
(line 129) or the list `[X_train, exog_var_train]` (line 122, where
`exog_var_train` is the possibly-`None` Python variable). -/
inductive FitX where
  | plain (x : Arr)
  | withExog (x : Arr) (exog : Option Arr)
deriving DecidableEq, Repr

/-- Arguments of `model.fit(...)` (lines 122-127 / 129-134). -/
structure FitArgs where
  x : FitX
  y : Arr
  validation_split : Rat
  batch_size : Nat
  epochs : Nat
  callbacks : List Callback
  verbose : Nat
deriving DecidableEq, Repr

/-- The closure `lambda x: dataset.inverse_transform(x, scaler=scaler,
trend=trend)` (lines 148-149): it captures the dataset module, the scaler and
the current value of the `trend` variable. -/
structure InverseFn where
  datasetId : DatasetId
  scaler : Scaler
  trend : TrendVar
deriving DecidableEq, Repr

/-- The closure `lambda x: plot(x, dataset.SAMPLES_PER_DAY, save_at=None)`
(line 150). -/
structure PlotFn where
  samples_per_day : Nat
  save_at : Option String
deriving DecidableEq, Repr

/-- The first argument of `tcn.evaluate`: `history.validation_data[:-1]`
(lines 153/156), `[X_test, y_test]` (line 157), or
`[[X_test, exog_var_test], y_test]` (line 154). -/
inductive EvalData where
  | valList (xs : List Arr)
  | testPlain (x y : Arr)
  | testExog (x : Arr) (exog : Option Arr) (y : Arr)
deriving DecidableEq, Repr

/-- Arguments of `tcn.evaluate(...)` (lines 153-157). -/
structure EvalArgs where
  data : EvalData
  fn_inverse : InverseFn
  fn_plot : Option PlotFn
deriving DecidableEq, Repr

instance {ε α : Type} [DecidableEq ε] [DecidableEq α] : DecidableEq (Except ε α) := fun a b =>
  match a, b with
  | .ok x, .ok y =>
      if h : x = y then isTrue (by rw [h]) else isFalse (fun hc => by cases hc; exact h rfl)
  | .error x, .error y =>
      if h : x = y then isTrue (by rw [h]) else isFalse (fun hc => by cases hc; exact h rfl)
  | .ok _, .error _ => isFalse (fun hc => by cases hc)
  | .error _, .ok _ => isFalse (fun hc => by cases hc)

/-- Static call sites of the script, used to tag trace events.  Two events
with the same tag would mean the same source line executed twice. -/
inductive CallSite where
  | logParams
  | loadData
  | rnnTrain
  | rnnTestExog
  | rnnTestPlain
  | rnnTrend
  | buildModel
  | logLoad
  | loadWeights
  | compileSite
  | fitCond
  | fitPlain
  | saveWeights
  | logSaved
  | evalValCond
  | evalTestCond
  | evalValPlain
  | evalTestPlain
deriving DecidableEq, Repr

/-- One step of observable behaviour of the script: an access to the `params`
mapping (the script only ever reads, but the event language can express
writes so that immutability is a theorem, not a typing artifact), a logging
call, or a library call with its arguments and result. -/
inductive Event where
  | paramRead (key : String)
  | paramWrite (key : String)
  | logInfo (site : CallSite)
  | loadDataCall (a : LoadArgs) (r : Except Err LoadResult)
  | rnnCall (site : CallSite) (a : RnnArgs) (r : Except Err (Arr × Arr))
  | buildModelCall (t : TCNArgs) (b : BuildArgs) (r : Except Err Model)
  | loadWeightsCall (m : Model) (path : Option String) (r : Except Err Unit)
  | compileCall (m : Model) (a : CompileArgs) (r : Except Err Unit)
  | fitCall (site : CallSite) (m : Model) (a : FitArgs) (r : Except Err History)
  | saveWeightsCall (m : Model) (path : String) (r : Except Err Unit)
  | evalCall (site : CallSite) (a : EvalArgs) (r : Except Err (List Val))
deriving DecidableEq, Repr

/-- The call site of a call event, `none` for parameter accesses. -/
def siteOf : Event → Option CallSite
  | .paramRead _ => none
  | .paramWrite _ => none
  | .logInfo s => some s
  | .loadDataCall _ _ => some .loadData
  | .rnnCall s _ _ => some s
  | .buildModelCall _ _ _ => some .buildModel
  | .loadWeightsCall _ _ _ => some .loadWeights
  | .compileCall _ _ _ => some .compileSite
  | .fitCall s _ _ _ => some s
  | .saveWeightsCall _ _ _ => some .saveWeights
  | .evalCall s _ _ => some s

/-- The exception raised by a call event, if its result was an error. -/
def errOf : Event → Option Err
  | .loadDataCall _ (.error e) => some e
  | .rnnCall _ _ (.error e) => some e
  | .buildModelCall _ _ (.error e) => some e
  | .loadWeightsCall _ _ (.error e) => some e
  | .compileCall _ _ (.error e) => some e
  | .fitCall _ _ _ (.error e) => some e
  | .saveWeightsCall _ _ (.error e) => some e
  | .evalCall _ _ (.error e) => some e
  | _ => none

/-- Computation type of the embedded script: a result (or the uncaught
exception terminating the run) together with the trace of emitted events. -/
def M (α : Type) : Type := Except Err α × List Event

def pureM {α : Type} (a : α) : M α := (.ok a, [])

/-- Sequencing: on an error the continuation never runs (the exception
propagates), mirroring the absence of any `try/except` in the script. -/
def bindM {α β : Type} (m : M α) (f : α → M β) : M β :=
  match m with
  | (.ok a, u) => ((f a).1, u ++ (f a).2)
  | (.error e, u) => (.error e, u)

/-- A read access `params[key]` evaluating to `v`. -/
def readP {α : Type} (key : String) (v : α) : M α := (.ok v, [Event.paramRead key])

/-- A library call with prerecorded outcome `r`, emitting its event. -/
def callE {α : Type} (mk : Except Err α → Event) (r : Except Err α) : M α :=
  (r, [mk r])

/-- A `logger.info(...)` call (lines 36, 114, 143): cannot fail. -/
def emitLog (s : CallSite) : M Unit := (.ok (), [Event.logInfo s])

/-- The subscript `trend[1]` (line 102): succeeds on the loader's pair,
raises a TypeError otherwise (e.g. if the loader returned `None`). -/
def trendIndex1 : TrendVar → M Arr
  | .pairV _ t1 => (.ok t1, [])
  | _ => (.error (.pyTypeError "object is not subscriptable"), [])

/-- `os.path.join` restricted to two components. -/
def pyPathJoin (a b : String) : String :=
  if b.startsWith "/" then b
  else if a = "" then b
  else if a.endsWith "/" then a ++ b
  else a ++ "/" ++ b

/-- One step of Python `dict` construction: a repeated key overwrites the
stored value in place, a fresh key is appended. -/
def pyDictInsert (d : List (String × Val)) (kv : String × Val) : List (String × Val) :=
  if d.any fun e => e.1 == kv.1 then
    d.map fun e => if e.1 == kv.1 then (e.1, kv.2) else e
  else d ++ [kv]

/-- `dict(pairs)` as an insertion-ordered association list. -/
def pyDict (l : List (String × Val)) : List (String × Val) :=
  l.foldl pyDictInsert []

/-- The value returned by `main` (lines 160-162): the validation metrics
dict, the test metrics dict, and the weights file path. -/
abbrev MainResult := List (String × Val) × List (String × Val) × String

/-- The external collaborators of the script: dataset modules, windowing,
the Keras model, the `dts` config dict, the wall clock.  Each fallible call
returns `Except Err _`; the script has no influence on these outcomes. -/
structure Env where
  load_data : LoadArgs → Except Err LoadResult
  get_rnn_inputs : RnnArgs → Except Err (Arr × Arr)
  build_model : TCNArgs → BuildArgs → Except Err Model
  load_weights : Model → Option String → Except Err Unit
  compileModel : Model → CompileArgs → Except Err Unit
  fit : Model → FitArgs → Except Err History
  save_weights : Model → String → Except Err Unit
  evaluate : EvalArgs → Except Err (List Val)
  validation_data : History → List Arr
  model_metrics : Model → List Metric
  metricsModule : List Metric
  shape1 : Arr → Nat
  shapeLast : Arr → Nat
  config_weights : String
  config_db : String
  time_str : String
  samples_per_day : DatasetId → Nat

/-- Lines 42-45: pick the dataset module by name. -/
def selectDataset (dataset_name : String) : DatasetId :=
  if dataset_name == "gefcom" then DatasetId.gefcom2014 else DatasetId.uci_single_households

/-- The `load_data` keyword arguments as a function of the parameters
(lines 47-53). -/
def loadArgsFor (p : Params) : LoadArgs :=
  { datasetId := selectDataset p.dataset, fill_nan := "median", preprocessing := true,
    split_type := "simple", is_train := p.train, detrend := p.detrend,
    exogenous_vars := p.exogenous, use_prebuilt := true }

def callRnn (env : Env) (site : CallSite) (a : RnnArgs) : M (Arr × Arr) :=
  callE (Event.rnnCall site a) (env.get_rnn_inputs a)

def callEval (env : Env) (site : CallSite) (a : EvalArgs) : M (List Val) :=
  callE (Event.evalCall site a) (env.evaluate a)

/-- Lines 41-56: dataset selection, `load_data`, unpacking, and the
`if not params['detrend']: trend = None` reset. -/
def loadDatasetStage (p : Params) (env : Env) :
    M (DatasetId × Scaler × Arr × Arr × TrendVar) :=
  bindM (readP "dataset" p.dataset) fun dataset_name =>
  let dataset := selectDataset dataset_name
  bindM (readP "train" p.train) fun is_train =>
  bindM (readP "detrend" p.detrend) fun detrend0 =>
  bindM (readP "exogenous" p.exogenous) fun exogenous0 =>
  let largs : LoadArgs :=
    { datasetId := dataset, fill_nan := "median", preprocessing := true,
      split_type := "simple", is_train := is_train, detrend := detrend0,
      exogenous_vars := exogenous0, use_prebuilt := true }
  bindM (callE (Event.loadDataCall largs) (env.load_data largs)) fun data =>
  bindM (readP "detrend" p.detrend) fun detrend1 =>
  let trend := if !detrend1 then TrendVar.noneV else data.trend
  pureM (dataset, data.scaler, data.train, data.test, trend)

/-- Lines 58-62: windowing of the training split. -/
def windowTrainStage (p : Params) (env : Env) (train : Arr) : M (Arr × Arr) :=
  bindM (readP "input_sequence_length" p.input_sequence_length) fun w =>
  bindM (readP "output_sequence_length" p.output_sequence_length) fun h =>
  bindM (readP "exogenous" p.exogenous) fun mo =>
  callRnn env CallSite.rnnTrain
    { data := train, window_size := w, horizon := h, shuffle := true,
      multivariate_output := mo }

/-- Lines 68-77: the `TCNModel(...)` constructor arguments. -/
def tcnArgsStage (p : Params) : M TCNArgs :=
  bindM (readP "layers" p.layers) fun lay =>
  bindM (readP "out_channels" p.out_channels) fun oc =>
  bindM (readP "kernel_size" p.kernel_size) fun ks =>
  bindM (readP "l2_reg" p.l2_reg) fun kr =>
  bindM (readP "l2_reg" p.l2_reg) fun br =>
  bindM (readP "dilation" p.dilation) fun dr =>
  bindM (readP "tcn_type" p.tcn_type) fun tt =>
  pureM { layers := lay, filters := oc, kernel_size := ks,
          kernel_init := "glorot_normal", kernel_regularizer := ⟨kr⟩,
          bias_regularizer := ⟨br⟩, dilation_rate := dr, use_bias := false,
          return_sequence := true, tcn_type := tt }

/-- Lines 79-98: the exogenous branch (slice the targets, window the test
split with `multivariate_output=True`) or the plain branch.  Output order:
`(y_train, exog_var_train, X_test, y_test, exog_var_test, conditions_shape)`. -/
def exogStage (p : Params) (env : Env) (test y_train0 : Arr) :
    M (Arr × Option Arr × Arr × Arr × Option Arr × Option (Nat × Nat)) :=
  bindM (readP "exogenous" p.exogenous) fun ex =>
  if ex then
    let exog_var_train := Arr.sliceRestFeatures y_train0
    let y_train := Arr.sliceFirstFeature y_train0
    let conditions_shape :=
      some (env.shape1 exog_var_train, env.shapeLast exog_var_train)
    bindM (readP "input_sequence_length" p.input_sequence_length) fun w =>
    bindM (readP "output_sequence_length" p.output_sequence_length) fun h =>
    bindM (callRnn env CallSite.rnnTestExog
      { data := test, window_size := w, horizon := h, shuffle := false,
        multivariate_output := true }) fun xy =>
    let exog_var_test := Arr.sliceRestFeatures xy.2
    let y_test := Arr.sliceFirstFeature xy.2
    pureM (y_train, some exog_var_train, xy.1, y_test, some exog_var_test, conditions_shape)
  else
    bindM (readP "input_sequence_length" p.input_sequence_length) fun w =>
    bindM (readP "output_sequence_length" p.output_sequence_length) fun h =>
    bindM (callRnn env CallSite.rnnTestPlain
      { data := test, window_size := w, horizon := h, shuffle := false,
        multivariate_output := false }) fun xy =>
    pureM (y_train0, none, xy.1, xy.2, none, none)

/-- Lines 100-106: pass the trend values through the same windowing as the
inputs, rebinding `trend` to `y_trend_test`. -/
def trendStage (p : Params) (env : Env) (trend : TrendVar) : M TrendVar :=
  bindM (readP "detrend" p.detrend) fun dt =>
  if dt then
    bindM (trendIndex1 trend) fun trend1 =>
    bindM (readP "input_sequence_length" p.input_sequence_length) fun w =>
    bindM (readP "output_sequence_length" p.output_sequence_length) fun h =>
    bindM (callRnn env CallSite.rnnTrend
      { data := trend1, window_size := w, horizon := h, shuffle := false,
        multivariate_output := false }) fun xy =>
    pureM (TrendVar.arrV xy.2)
  else
    pureM trend

/-- Lines 108-115: `build_model` and the optional weight loading. -/
def buildModelStage (p : Params) (env : Env) (tcn : TCNArgs) (x_train : Arr)
    (conditions_shape : Option (Nat × Nat)) : M Model :=
  bindM (readP "output_sequence_length" p.output_sequence_length) fun h =>
  let bargs : BuildArgs :=
    { input_shape := (env.shape1 x_train, env.shapeLast x_train), horizon := h,
      conditions_shape := conditions_shape, use_final_dense := true }
  bindM (callE (Event.buildModelCall tcn bargs) (env.build_model tcn bargs)) fun model =>
  bindM (readP "load" p.load) fun ld =>
  match ld with
  | some _ =>
      bindM (readP "load" p.load) fun _ld2 =>
      bindM (emitLog CallSite.logLoad) fun _ =>
      bindM (readP "load" p.load) fun ld3 =>
      bindM (callE (Event.loadWeightsCall model ld3) (env.load_weights model ld3)) fun _ =>
      pureM model
  | none => pureM model

/-- Lines 117-119: optimizer, `compile`, callbacks list. -/
def compileStage (p : Params) (env : Env) (model : Model) : M (List Callback) :=
  bindM (readP "learning_rate" p.learning_rate) fun lr =>
  let cargs : CompileArgs :=
    { optimizer := { learning_rate := lr }, loss := ["mse"],
      metrics := env.metricsModule }
  bindM (callE (Event.compileCall model cargs) (env.compileModel model cargs)) fun _ =>
  pureM [Callback.earlyStopping 50 "val_loss"]

/-- Lines 122-127: the conditional-TCN `model.fit([X_train, exog_var_train],
y_train, ...)` call. -/
def fitCondCall (p : Params) (env : Env) (model : Model) (x_train y_train : Arr)
    (exog_var_train : Option Arr) (callbacks : List Callback) : M History :=
  bindM (readP "batch_size" p.batch_size) fun bs =>
  bindM (readP "epochs" p.epochs) fun ep =>
  let fargs : FitArgs :=
    { x := FitX.withExog x_train exog_var_train, y := y_train,
      validation_split := 1/10, batch_size := bs, epochs := ep,
      callbacks := callbacks, verbose := 2 }
  callE (Event.fitCall CallSite.fitCond model fargs) (env.fit model fargs)

/-- Lines 129-134: the plain `model.fit(X_train, y_train, ...)` call. -/
def fitPlainCall (p : Params) (env : Env) (model : Model) (x_train y_train : Arr)
    (callbacks : List Callback) : M History :=
  bindM (readP "batch_size" p.batch_size) fun bs =>
  bindM (readP "epochs" p.epochs) fun ep =>
  let fargs : FitArgs :=
    { x := FitX.plain x_train, y := y_train,
      validation_split := 1/10, batch_size := bs, epochs := ep,
      callbacks := callbacks, verbose := 2 }
  callE (Event.fitCall CallSite.fitPlain model fargs) (env.fit model fargs)

/-- Lines 121-134: `model.fit`, either with `[X_train, exog_var_train]` in the
conditional branch or with `X_train` alone.  The Python `and` short-circuit of
line 121 is rendered as nested conditionals: `tcn_type` is only read when
`exogenous` is truthy, and the plain branch is taken otherwise. -/
def fitStage (p : Params) (env : Env) (model : Model) (x_train y_train : Arr)
    (exog_var_train : Option Arr) (callbacks : List Callback) : M History :=
  bindM (readP "exogenous" p.exogenous) fun ex =>
  if ex then
    bindM (readP "tcn_type" p.tcn_type) fun tt =>
    if tt == "conditional_tcn" then
      fitCondCall p env model x_train y_train exog_var_train callbacks
    else
      fitPlainCall p env model x_train y_train callbacks
  else
    fitPlainCall p env model x_train y_train callbacks

/-- Lines 139-143: build the weights path from `tcn_type`, `dataset` and the
current time, save, and log. -/
def saveStage (p : Params) (env : Env) (model : Model) : M String :=
  bindM (readP "tcn_type" p.tcn_type) fun tt =>
  bindM (readP "dataset" p.dataset) fun ds =>
  let model_filepath :=
    pyPathJoin env.config_weights (tt ++ "_" ++ ds ++ "_" ++ env.time_str)
  bindM (callE (Event.saveWeightsCall model model_filepath)
        (env.save_weights model model_filepath)) fun _ =>
  bindM (emitLog CallSite.logSaved) fun _ =>
  pureM model_filepath

/-- Lines 145-157: build the inverse-transform and plot closures and run both
evaluation passes.  `fn_inverse_val` captures `trend=None` (line 148),
`fn_inverse_test` captures the current `trend` variable (line 149). -/
def evalStage (p : Params) (env : Env) (dataset : DatasetId) (scaler : Scaler)
    (trend : TrendVar) (history : History) (x_test y_test : Arr)
    (exog_var_test : Option Arr) : M (List Val × List Val) :=
  let fn_inverse_val : InverseFn :=
    { datasetId := dataset, scaler := scaler, trend := TrendVar.noneV }
  let fn_inverse_test : InverseFn :=
    { datasetId := dataset, scaler := scaler, trend := trend }
  let fn_plot : PlotFn :=
    { samples_per_day := env.samples_per_day dataset, save_at := none }
  bindM (readP "exogenous" p.exogenous) fun ex =>
  if ex then
    bindM (readP "tcn_type" p.tcn_type) fun tt =>
    if tt == "conditional_tcn" then
      bindM (callEval env CallSite.evalValCond
        { data := EvalData.valList (env.validation_data history).dropLast,
          fn_inverse := fn_inverse_val, fn_plot := none }) fun val_scores =>
      bindM (callEval env CallSite.evalTestCond
        { data := EvalData.testExog x_test exog_var_test y_test,
          fn_inverse := fn_inverse_test, fn_plot := some fn_plot }) fun test_scores =>
      pureM (val_scores, test_scores)
    else
      bindM (callEval env CallSite.evalValPlain
        { data := EvalData.valList (env.validation_data history).dropLast,
          fn_inverse := fn_inverse_val, fn_plot := none }) fun val_scores =>
      bindM (callEval env CallSite.evalTestPlain
        { data := EvalData.testPlain x_test y_test,
          fn_inverse := fn_inverse_test, fn_plot := some fn_plot }) fun test_scores =>
      pureM (val_scores, test_scores)
  else
    bindM (callEval env CallSite.evalValPlain
      { data := EvalData.valList (env.validation_data history).dropLast,
        fn_inverse := fn_inverse_val, fn_plot := none }) fun val_scores =>
    bindM (callEval env CallSite.evalTestPlain
      { data := EvalData.testPlain x_test y_test,
        fn_inverse := fn_inverse_test, fn_plot := some fn_plot }) fun test_scores =>
    pureM (val_scores, test_scores)

/-- Lines 159-162: metric names from the compiled model and the returned
triple of dicts and path. -/
def finalStage (env : Env) (model : Model) (val_scores test_scores : List Val)
    (model_filepath : String) : M MainResult :=
  let metrics_names := (env.model_metrics model).map metricName
  pureM (pyDict (metrics_names.zip val_scores),
         pyDict (metrics_names.zip test_scores), model_filepath)

/-- The body of `main` (lines 31-162), stage by stage.  The components of
`load_out` are `(dataset, scaler, train, test, trend)` (line 54), those of
`exog_out` are `(y_train, exog_var_train, X_test, y_test, exog_var_test,
conditions_shape)` (lines 79-98). -/
def mainM (p : Params) (env : Env) : M MainResult :=
  bindM (emitLog CallSite.logParams) fun _ =>
  bindM (loadDatasetStage p env) fun load_out =>
  bindM (windowTrainStage p env load_out.2.2.1) fun xy_train =>
  bindM (tcnArgsStage p) fun tcn =>
  bindM (exogStage p env load_out.2.2.2.1 xy_train.2) fun exog_out =>
  bindM (trendStage p env load_out.2.2.2.2) fun trend =>
  bindM (buildModelStage p env tcn xy_train.1 exog_out.2.2.2.2.2) fun model =>
  bindM (compileStage p env model) fun callbacks =>
  bindM (fitStage p env model xy_train.1 exog_out.1 exog_out.2.1 callbacks) fun history =>
  bindM (saveStage p env model) fun model_filepath =>
  bindM (evalStage p env load_out.1 load_out.2.1 trend history
    exog_out.2.2.1 exog_out.2.2.2.1 exog_out.2.2.2.2.1) fun scores =>
  finalStage env model scores.1 scores.2 model_filepath

/-- One run of `main`: the returned triple (or uncaught exception) and the
trace of parameter accesses and library calls. -/
def run (p : Params) (env : Env) : Except Err MainResult × List Event :=
  mainM p env

/-- The experiment class token passed as `experimentclass=DTSExperiment`. -/
inductive ExperimentClass where
  | DTSExperiment
deriving DecidableEq, Repr

/-- The metric-logging function token passed as `f_metrics=log_metrics`. -/
inductive MetricsFn where
  | log_metrics
deriving DecidableEq, Repr

/-- The keyword arguments shared by `run_grid_search` and
`run_single_experiment` (lines 168-175 and 177-184). -/
structure RunnerArgs where
  experimentclass : ExperimentClass
  f_config : Option String
  db_name : String
  ex_name : String
  f_main : Env → Except Err MainResult × List Event
  f_metrics : MetricsFn
  observer_type : String

/-- Which experiment-runner routine the `__main__` block invoked. -/
inductive RunnerCall where
  | grid (a : RunnerArgs)
  | single (a : RunnerArgs)

def RunnerCall.isGrid : RunnerCall → Bool
  | .grid _ => true
  | .single _ => false

def RunnerCall.args : RunnerCall → RunnerArgs
  | .grid a => a
  | .single a => a

/-- The Python-`and` short-circuit condition of lines 121 and 152:
`params['exogenous'] and params['tcn_type'] == 'conditional_tcn'`. -/
def condFit (p : Params) : Bool :=
  p.exogenous && (p.tcn_type == "conditional_tcn")

/-- The `if __name__ == '__main__'` block (lines 165-184). -/
def scriptMain (p : Params) (env : Env) : RunnerCall :=
  if p.grid_search then
    RunnerCall.grid
      { experimentclass := .DTSExperiment, f_config := p.add_config,
        db_name := env.config_db, ex_name := "tcn_grid_search",
        f_main := mainM p, f_metrics := .log_metrics, observer_type := p.observer }
  else
    RunnerCall.single
      { experimentclass := .DTSExperiment, f_config := p.add_config,
        db_name := env.config_db, ex_name := "tcn",
        f_main := mainM p, f_metrics := .log_metrics, observer_type := p.observer }

/-! ### Generic lemmas about the computation type -/

/-- Inversion of a successful `bindM`: both parts succeeded and the traces
concatenate. -/
theorem bindM_ok {α β : Type} {m : M α} {f : α → M β} {b : β} {u : List Event}
    (h : bindM m f = (.ok b, u)) :
    ∃ a u1 u2, m = (.ok a, u1) ∧ f a = (.ok b, u2) ∧ u = u1 ++ u2 := by
  rcases m with ⟨r, w⟩
  cases r with
  | ok a =>
      rcases hfa : f a with ⟨r2, w2⟩
      simp only [bindM, hfa] at h
      injection h with h1 h2
      exact ⟨a, w, w2, rfl, by rw [hfa, h1], h2.symm⟩
  | error e =>
      simp only [bindM] at h
      injection h with h1 h2
      exact absurd h1 (by simp)

/-- Pointwise property of all events emitted by a sequenced computation,
threading a postcondition `Q` of the first part's result to the second. -/
theorem eventsOK_bindM {α β : Type} {P : Event → Prop} (Q : α → Prop)
    {m : M α} {f : α → M β}
    (hm : ∀ e ∈ m.2, P e)
    (hQ : ∀ a u, m = (.ok a, u) → Q a)
    (hf : ∀ a, Q a → ∀ e ∈ (f a).2, P e) :
    ∀ e ∈ (bindM m f).2, P e := by
  rcases m with ⟨r, w⟩
  cases r with
  | ok a =>
      intro e he
      simp only [bindM, List.mem_append] at he
      rcases he with h | h
      · exact hm e h
      · exact hf a (hQ a w rfl) e h
  | error e0 =>
      intro e he
      exact hm e he

/-- Events of a library call followed by a continuation: the call's event,
then (on success) the continuation's events. -/
theorem eventsOK_bindM_callE {α β : Type} {P : Event → Prop}
    (mk : Except Err α → Event) (r : Except Err α) (f : α → M β)
    (h1 : ∀ rr, P (mk rr)) (h2 : ∀ a, ∀ e ∈ (f a).2, P e) :
    ∀ e ∈ (bindM (callE mk r) f).2, P e := by
  cases r with
  | ok a =>
      intro e he
      simp only [bindM, callE, List.mem_append, List.mem_cons,
        List.not_mem_nil, or_false, List.singleton_append] at he
      rcases he with rfl | he
      · exact h1 _
      · exact h2 a e he
  | error e0 =>
      intro e he
      simp only [bindM, callE, List.mem_cons, List.not_mem_nil, or_false] at he
      rcases he with rfl
      exact h1 _

/-- Trace of a parameter read followed by a continuation. -/
theorem snd_bindM_readP {α β : Type} (k : String) (v : α) (f : α → M β) :
    (bindM (readP k v) f).2 = Event.paramRead k :: (f v).2 := by
  simp [bindM, readP]

/-- Trace of a log call followed by a continuation. -/
theorem snd_bindM_emitLog {β : Type} (s : CallSite) (f : Unit → M β) :
    (bindM (emitLog s) f).2 = Event.logInfo s :: (f ()).2 := by
  simp [bindM, emitLog]

/-- Trace of a library call followed by a continuation: the call's event,
then the continuation's events if the call succeeded. -/
theorem snd_bindM_callE {α β : Type} (mk : Except Err α → Event)
    (r : Except Err α) (f : α → M β) :
    (bindM (callE mk r) f).2 =
      mk r :: (match r with | Except.ok a => (f a).2 | Except.error _ => []) := by
  cases r <;> simp [bindM, callE]

theorem snd_bindM_pureM {α β : Type} (a : α) (f : α → M β) :
    (bindM (pureM a) f).2 = (f a).2 := by
  simp [bindM, pureM]

theorem snd_pureM {α : Type} (a : α) : (pureM a : M α).2 = [] := rfl

theorem snd_mite {α : Type} (c : Prop) [Decidable c] (m1 m2 : M α) :
    (if c then m1 else m2).2 = if c then m1.2 else m2.2 := by
  split <;> rfl

theorem snd_callE {α : Type} (mk : Except Err α → Event) (r : Except Err α) :
    (callE mk r).2 = [mk r] := rfl

theorem snd_bindM_trendIndex1 {β : Type} (t : TrendVar) (f : Arr → M β) :
    (bindM (trendIndex1 t) f).2 =
      match t with | TrendVar.pairV _ t1 => (f t1).2 | _ => [] := by
  cases t <;> simp [bindM, trendIndex1]

theorem fst_bindM_okPair {α β : Type} (a : α) (w : List Event) (f : α → M β) :
    (bindM (Except.ok a, w) f).1 = (f a).1 := rfl

theorem snd_bindM_okPair {α β : Type} (a : α) (w : List Event) (f : α → M β) :
    (bindM (Except.ok a, w) f).2 = w ++ (f a).2 := rfl

theorem fst_bindM_errPair {α β : Type} (e : Err) (w : List Event) (f : α → M β) :
    (bindM (Except.error e, w) f).1 = Except.error e := rfl

/-- The call sites appearing in a trace, in order. -/
def sitesOf (u : List Event) : List CallSite := u.filterMap siteOf

/-- Call-site sublist property composes over sequencing. -/
theorem sites_bindM {α β : Type} {m : M α} {f : α → M β}
    {l1 l2 : List CallSite}
    (hm : List.Sublist (sitesOf m.2) l1)
    (hf : ∀ a, List.Sublist (sitesOf (f a).2) l2) :
    List.Sublist (sitesOf (bindM m f).2) (l1 ++ l2) := by
  rcases m with ⟨r, w⟩
  cases r with
  | ok a =>
      simp only [bindM, sitesOf, List.filterMap_append]
      exact List.Sublist.append hm (hf a)
  | error e0 =>
      simp only [bindM]
      exact hm.trans (List.sublist_append_left l1 l2)

theorem sites_weaken {u : List Event} {l1 l2 : List CallSite}
    (h : List.Sublist (sitesOf u) l1) (hl : List.Sublist l1 l2) :
    List.Sublist (sitesOf u) l2 :=
  h.trans hl

/-- Error propagation: if any event in the trace records an exception, the
computation's result is that exception. -/
def ErrP {α : Type} (m : M α) : Prop :=
  ∀ e ∈ m.2, ∀ err, errOf e = some err → m.1 = .error err

theorem errP_bindM {α β : Type} {m : M α} {f : α → M β}
    (hm : ErrP m) (hf : ∀ a, ErrP (f a)) : ErrP (bindM m f) := by
  rcases m with ⟨r, w⟩
  cases r with
  | ok a =>
      intro e he err herr
      simp only [bindM, List.mem_append] at he ⊢
      rcases he with h | h
      · exact absurd (hm e h err herr) (by simp)
      · exact hf a e h err herr
  | error e0 =>
      intro e he err herr
      simp only [bindM] at he ⊢
      simpa using hm e he err herr

/-! ### Per-stage event characterisations -/

theorem eventsOK_loadDatasetStage (P : Event → Prop) (p : Params) (env : Env)
    (h1 : ∀ k, P (Event.paramRead k))
    (h2 : ∀ r, P (Event.loadDataCall (loadArgsFor p) r)) :
    ∀ e ∈ (loadDatasetStage p env).2, P e := by
  intro e he
  simp only [loadDatasetStage, bindM, readP, callE, pureM] at he
  split at he
  next a u heq =>
    injection heq with hr hu
    subst hu
    simp only [List.mem_append, List.mem_cons, List.not_mem_nil, or_false] at he
    rcases he with rfl | rfl | rfl | rfl | rfl | rfl <;>
      first
        | exact h1 _
        | (simpa [loadArgsFor] using h2 _)
  next e0 u heq =>
    injection heq with hr hu
    subst hu
    simp only [List.mem_append, List.mem_cons, List.not_mem_nil, or_false] at he
    rcases he with rfl | rfl | rfl | rfl | rfl <;>
      first
        | exact h1 _
        | (simpa [loadArgsFor] using h2 _)

theorem eventsOK_windowTrainStage (P : Event → Prop) (p : Params) (env : Env)
    (train : Arr)
    (h1 : ∀ k, P (Event.paramRead k))
    (h2 : ∀ r, P (Event.rnnCall CallSite.rnnTrain
        { data := train, window_size := p.input_sequence_length,
          horizon := p.output_sequence_length, shuffle := true,
          multivariate_output := p.exogenous } r)) :
    ∀ e ∈ (windowTrainStage p env train).2, P e := by
  intro e he
  simp only [windowTrainStage, callRnn, bindM, readP, callE, pureM] at he
  simp only [List.mem_append, List.mem_cons, List.not_mem_nil, or_false] at he
  rcases he with rfl | rfl | rfl | rfl <;>
    first
      | exact h1 _
      | exact h2 _

theorem eventsOK_tcnArgsStage (P : Event → Prop) (p : Params)
    (h1 : ∀ k, P (Event.paramRead k)) :
    ∀ e ∈ (tcnArgsStage p).2, P e := by
  intro e he
  simp only [tcnArgsStage, bindM, readP, pureM] at he
  simp only [List.mem_append, List.mem_cons, List.not_mem_nil, or_false,
    List.append_nil] at he
  rcases he with rfl | rfl | rfl | rfl | rfl | rfl | rfl <;> exact h1 _

theorem eventsOK_exogStage (P : Event → Prop) (p : Params) (env : Env)
    (test y_train0 : Arr)
    (h1 : ∀ k, P (Event.paramRead k))
    (h2 : p.exogenous = true → ∀ r, P (Event.rnnCall CallSite.rnnTestExog
        { data := test, window_size := p.input_sequence_length,
          horizon := p.output_sequence_length, shuffle := false,
          multivariate_output := true } r))
    (h3 : p.exogenous = false → ∀ r, P (Event.rnnCall CallSite.rnnTestPlain
        { data := test, window_size := p.input_sequence_length,
          horizon := p.output_sequence_length, shuffle := false,
          multivariate_output := false } r)) :
    ∀ e ∈ (exogStage p env test y_train0).2, P e := by
  intro e he
  simp only [exogStage, callRnn, bindM, readP, callE, pureM] at he
  split at he
  next hex =>
    split at he <;>
    next _a _u heq =>
      injection heq with hr hu
      subst hu
      simp only [List.mem_append, List.mem_cons, List.not_mem_nil, or_false,
        List.append_nil] at he
      rcases he with rfl | rfl | rfl | rfl <;>
        first
          | exact h1 _
          | exact h2 hex _
  next hex =>
    simp only [Bool.not_eq_true] at hex
    split at he <;>
    next _a _u heq =>
      injection heq with hr hu
      subst hu
      simp only [List.mem_append, List.mem_cons, List.not_mem_nil, or_false,
        List.append_nil] at he
      rcases he with rfl | rfl | rfl | rfl <;>
        first
          | exact h1 _
          | exact h3 hex _

theorem eventsOK_trendStage (P : Event → Prop) (p : Params) (env : Env)
    (trend : TrendVar)
    (h1 : ∀ k, P (Event.paramRead k))
    (h2 : ∀ t0 t1 r, p.detrend = true → trend = TrendVar.pairV t0 t1 →
        P (Event.rnnCall CallSite.rnnTrend
        { data := t1, window_size := p.input_sequence_length,
          horizon := p.output_sequence_length, shuffle := false,
          multivariate_output := false } r)) :
    ∀ e ∈ (trendStage p env trend).2, P e := by
  intro e he
  simp only [trendStage, callRnn, bindM, readP, callE, pureM] at he
  split at he
  next hdt =>
    cases trend with
    | noneV =>
        simp only [trendIndex1, List.mem_append, List.mem_cons,
          List.not_mem_nil, or_false] at he
        rcases he with rfl <;> exact h1 _
    | pairV t0 t1 =>
        simp only [trendIndex1] at he
        split at he <;>
        next _a _u heq =>
          injection heq with hr hu
          subst hu
          simp only [List.mem_append, List.mem_cons, List.not_mem_nil,
            or_false, List.nil_append, List.append_nil] at he
          rcases he with rfl | rfl | rfl | rfl <;>
            first
              | exact h1 _
              | exact h2 t0 t1 _ hdt rfl
    | arrV a =>
        simp only [trendIndex1, List.mem_append, List.mem_cons,
          List.not_mem_nil, or_false] at he
        rcases he with rfl <;> exact h1 _
  next hdt =>
    simp only [List.mem_append, List.mem_cons, List.not_mem_nil, or_false] at he
    rcases he with rfl <;> exact h1 _

theorem eventsOK_buildModelStage (P : Event → Prop) (p : Params) (env : Env)
    (tcn : TCNArgs) (x_train : Arr) (cs : Option (Nat × Nat))
    (h1 : ∀ k, P (Event.paramRead k))
    (h2 : ∀ r, P (Event.buildModelCall tcn
        { input_shape := (env.shape1 x_train, env.shapeLast x_train),
          horizon := p.output_sequence_length, conditions_shape := cs,
          use_final_dense := true } r))
    (h3 : P (Event.logInfo CallSite.logLoad))
    (h4 : ∀ m r, P (Event.loadWeightsCall m p.load r)) :
    ∀ e ∈ (buildModelStage p env tcn x_train cs).2, P e := by
  intro e he
  simp only [buildModelStage, bindM, readP, callE, emitLog, pureM] at he
  split at he
  next a u heq =>
    injection heq with hr hu
    subst hu
    rcases hl : p.load with _ | s <;> simp only [hl] at he <;>
      simp only [List.mem_append, List.mem_cons, List.not_mem_nil, or_false,
        List.append_nil] at he
    · rcases he with rfl | rfl | rfl <;>
        first
          | exact h1 _
          | exact h2 _
    · split at he
      next a2 u2 heq2 =>
        injection heq2 with hr2 hu2
        subst hu2
        simp only [List.mem_append, List.mem_cons, List.not_mem_nil,
          or_false, List.append_nil] at he
        rcases he with rfl | rfl | rfl | rfl | rfl | rfl | rfl <;>
          first
            | exact h1 _
            | exact h2 _
            | exact h3
            | (rw [← hl]; exact h4 _ _)
      next e2 u2 heq2 =>
        injection heq2 with hr2 hu2
        subst hu2
        simp only [List.mem_append, List.mem_cons, List.not_mem_nil,
          or_false, List.append_nil] at he
        rcases he with rfl | rfl | rfl | rfl | rfl | rfl | rfl <;>
          first
            | exact h1 _
            | exact h2 _
            | exact h3
            | (rw [← hl]; exact h4 _ _)
  next e0 u heq =>
    injection heq with hr hu
    subst hu
    simp only [List.mem_append, List.mem_cons, List.not_mem_nil, or_false] at he
    rcases he with rfl | rfl <;>
      first
        | exact h1 _
        | exact h2 _

theorem eventsOK_compileStage (P : Event → Prop) (p : Params) (env : Env)
    (model : Model)
    (h1 : ∀ k, P (Event.paramRead k))
    (h2 : ∀ r, P (Event.compileCall model
        { optimizer := { learning_rate := p.learning_rate }, loss := ["mse"],
          metrics := env.metricsModule } r)) :
    ∀ e ∈ (compileStage p env model).2, P e := by
  intro e he
  simp only [compileStage, bindM, readP, callE, pureM] at he
  split at he <;>
  next _a _u heq =>
    injection heq with hr hu
    subst hu
    simp only [List.mem_append, List.mem_cons, List.not_mem_nil, or_false,
      List.append_nil] at he
    rcases he with rfl | rfl <;>
      first
        | exact h1 _
        | exact h2 _

theorem eventsOK_fitCondCall (P : Event → Prop) (p : Params) (env : Env)
    (model : Model) (x_train y_train : Arr) (exog : Option Arr)
    (cbs : List Callback)
    (h1 : ∀ k, P (Event.paramRead k))
    (h2 : ∀ r, P (Event.fitCall CallSite.fitCond model
        { x := FitX.withExog x_train exog, y := y_train,
          validation_split := 1/10, batch_size := p.batch_size,
          epochs := p.epochs, callbacks := cbs, verbose := 2 } r)) :
    ∀ e ∈ (fitCondCall p env model x_train y_train exog cbs).2, P e := by
  intro e he
  simp only [fitCondCall, bindM, readP, callE, pureM] at he
  simp only [List.mem_append, List.mem_cons, List.not_mem_nil, or_false,
    List.append_nil] at he
  rcases he with rfl | rfl | rfl <;>
    first
      | exact h1 _
      | exact h2 _

theorem eventsOK_fitPlainCall (P : Event → Prop) (p : Params) (env : Env)
    (model : Model) (x_train y_train : Arr) (cbs : List Callback)
    (h1 : ∀ k, P (Event.paramRead k))
    (h2 : ∀ r, P (Event.fitCall CallSite.fitPlain model
        { x := FitX.plain x_train, y := y_train,
          validation_split := 1/10, batch_size := p.batch_size,
          epochs := p.epochs, callbacks := cbs, verbose := 2 } r)) :
    ∀ e ∈ (fitPlainCall p env model x_train y_train cbs).2, P e := by
  intro e he
  simp only [fitPlainCall, bindM, readP, callE, pureM] at he
  simp only [List.mem_append, List.mem_cons, List.not_mem_nil, or_false,
    List.append_nil] at he
  rcases he with rfl | rfl | rfl <;>
    first
      | exact h1 _
      | exact h2 _

theorem eventsOK_fitStage (P : Event → Prop) (p : Params) (env : Env)
    (model : Model) (x_train y_train : Arr) (exog : Option Arr)
    (cbs : List Callback)
    (h1 : ∀ k, P (Event.paramRead k))
    (h2 : p.exogenous = true → p.tcn_type = "conditional_tcn" →
        ∀ r, P (Event.fitCall CallSite.fitCond model
        { x := FitX.withExog x_train exog, y := y_train,
          validation_split := 1/10, batch_size := p.batch_size,
          epochs := p.epochs, callbacks := cbs, verbose := 2 } r))
    (h3 : ∀ r, P (Event.fitCall CallSite.fitPlain model
        { x := FitX.plain x_train, y := y_train,
          validation_split := 1/10, batch_size := p.batch_size,
          epochs := p.epochs, callbacks := cbs, verbose := 2 } r)) :
    ∀ e ∈ (fitStage p env model x_train y_train exog cbs).2, P e := by
  intro e he
  simp only [fitStage, bindM, readP, callE, pureM] at he
  split at he
  next hex =>
    simp only [List.mem_append, List.mem_cons, List.mem_singleton,
      List.not_mem_nil, or_false] at he
    rcases he with rfl | rfl | he
    · exact h1 _
    · exact h1 _
    split at he
    next htt =>
      simp only [beq_iff_eq] at htt
      exact eventsOK_fitCondCall P p env model x_train y_train exog cbs h1
        (h2 hex htt) e he
    next htt =>
      exact eventsOK_fitPlainCall P p env model x_train y_train cbs h1 h3 e he
  next hex =>
    simp only [List.mem_append, List.mem_cons, List.mem_singleton,
      List.not_mem_nil, or_false] at he
    rcases he with rfl | he
    · exact h1 _
    · exact eventsOK_fitPlainCall P p env model x_train y_train cbs h1 h3 e he

theorem eventsOK_saveStage (P : Event → Prop) (p : Params) (env : Env)
    (model : Model)
    (h1 : ∀ k, P (Event.paramRead k))
    (h2 : ∀ r, P (Event.saveWeightsCall model
        (pyPathJoin env.config_weights
          (p.tcn_type ++ "_" ++ p.dataset ++ "_" ++ env.time_str)) r))
    (h3 : P (Event.logInfo CallSite.logSaved)) :
    ∀ e ∈ (saveStage p env model).2, P e := by
  intro e he
  simp only [saveStage, snd_bindM_readP, snd_bindM_callE, snd_bindM_emitLog,
    snd_pureM] at he
  simp only [List.mem_cons] at he
  rcases he with rfl | rfl | rfl | he
  · exact h1 _
  · exact h1 _
  · exact h2 _
  · split at he
    · simp only [List.mem_cons, List.not_mem_nil, or_false] at he
      subst he
      exact h3
    · exact absurd he (List.not_mem_nil e)

theorem eventsOK_evalStage (P : Event → Prop) (p : Params) (env : Env)
    (dataset : DatasetId) (scaler : Scaler) (trend : TrendVar)
    (history : History) (x_test y_test : Arr) (exog_var_test : Option Arr)
    (h1 : ∀ k, P (Event.paramRead k))
    (hval : ∀ s r, (s = CallSite.evalValCond ∨ s = CallSite.evalValPlain) →
        P (Event.evalCall s
        { data := EvalData.valList (env.validation_data history).dropLast,
          fn_inverse := { datasetId := dataset, scaler := scaler,
                          trend := TrendVar.noneV },
          fn_plot := none } r))
    (htC : p.exogenous = true → p.tcn_type = "conditional_tcn" →
        ∀ r, P (Event.evalCall CallSite.evalTestCond
        { data := EvalData.testExog x_test exog_var_test y_test,
          fn_inverse := { datasetId := dataset, scaler := scaler, trend := trend },
          fn_plot := some { samples_per_day := env.samples_per_day dataset,
                            save_at := none } } r))
    (htP : ∀ r, P (Event.evalCall CallSite.evalTestPlain
        { data := EvalData.testPlain x_test y_test,
          fn_inverse := { datasetId := dataset, scaler := scaler, trend := trend },
          fn_plot := some { samples_per_day := env.samples_per_day dataset,
                            save_at := none } } r)) :
    ∀ e ∈ (evalStage p env dataset scaler trend history x_test y_test exog_var_test).2, P e := by
  intro e he
  simp only [evalStage, callEval, snd_bindM_readP, snd_bindM_callE,
    snd_bindM_pureM, snd_pureM, snd_mite] at he
  simp only [List.mem_cons] at he
  rcases he with rfl | he
  · exact h1 _
  split at he
  next hex =>
    simp only [List.mem_cons] at he
    rcases he with rfl | he
    · exact h1 _
    split at he
    next htt =>
      simp only [beq_iff_eq] at htt
      simp only [List.mem_cons] at he
      rcases he with rfl | he
      · exact hval _ _ (Or.inl rfl)
      split at he
      next a heq =>
        simp only [List.mem_cons] at he
        rcases he with rfl | he
        · exact htC hex htt _
        split at he
        next a2 heq2 => exact absurd he (List.not_mem_nil e)
        next e2 heq2 => exact absurd he (List.not_mem_nil e)
      next e0 heq => exact absurd he (List.not_mem_nil e)
    next htt =>
      simp only [List.mem_cons] at he
      rcases he with rfl | he
      · exact hval _ _ (Or.inr rfl)
      split at he
      next a heq =>
        simp only [List.mem_cons] at he
        rcases he with rfl | he
        · exact htP _
        split at he
        next a2 heq2 => exact absurd he (List.not_mem_nil e)
        next e2 heq2 => exact absurd he (List.not_mem_nil e)
      next e0 heq => exact absurd he (List.not_mem_nil e)
  next hex =>
    simp only [List.mem_cons] at he
    rcases he with rfl | he
    · exact hval _ _ (Or.inr rfl)
    split at he
    next a heq =>
      simp only [List.mem_cons] at he
      rcases he with rfl | he
      · exact htP _
      split at he
      next a2 heq2 => exact absurd he (List.not_mem_nil e)
      next e2 heq2 => exact absurd he (List.not_mem_nil e)
    next e0 heq => exact absurd he (List.not_mem_nil e)

/-! ### Result-projection rules and stage output lemmas -/

theorem fst_bindM_readP {α β : Type} (k : String) (v : α) (f : α → M β) :
    (bindM (readP k v) f).1 = (f v).1 := by
  simp [bindM, readP]

theorem fst_bindM_emitLog {β : Type} (s : CallSite) (f : Unit → M β) :
    (bindM (emitLog s) f).1 = (f ()).1 := by
  simp [bindM, emitLog]

theorem fst_bindM_callE {α β : Type} (mk : Except Err α → Event)
    (r : Except Err α) (f : α → M β) :
    (bindM (callE mk r) f).1 =
      match r with | Except.ok a => (f a).1 | Except.error e => Except.error e := by
  cases r <;> simp [bindM, callE]

theorem fst_bindM_pureM {α β : Type} (a : α) (f : α → M β) :
    (bindM (pureM a) f).1 = (f a).1 := by
  simp [bindM, pureM]

theorem fst_pureM {α : Type} (a : α) : (pureM a : M α).1 = Except.ok a := rfl

theorem fst_mite {α : Type} (c : Prop) [Decidable c] (m1 m2 : M α) :
    (if c then m1 else m2).1 = if c then m1.1 else m2.1 := by
  split <;> rfl

/-- If the dataset stage succeeds and detrending is off, the `trend`
variable it returns has been reset to `None` (lines 55-56). -/
theorem loadDatasetStage_okOut {p : Params} {env : Env}
    {out : DatasetId × Scaler × Arr × Arr × TrendVar} {u : List Event}
    (h : loadDatasetStage p env = (.ok out, u)) :
    p.detrend = false → out.2.2.2.2 = TrendVar.noneV := by
  intro hdt
  have h1 := congrArg Prod.fst h
  simp only [loadDatasetStage, fst_bindM_readP, fst_bindM_callE, fst_pureM] at h1
  split at h1
  next a heq =>
    injection h1 with h1
    subst h1
    simp [hdt]
  next e0 heq => exact absurd h1 (by simp)

/-- If the trend stage succeeds with detrending off, it returns its input
unchanged (lines 101-106 are skipped). -/
theorem trendStage_okOut {p : Params} {env : Env} {t out : TrendVar}
    {u : List Event} (h : trendStage p env t = (.ok out, u)) :
    p.detrend = false → out = t := by
  intro hdt
  have h1 := congrArg Prod.fst h
  simp only [trendStage, fst_bindM_readP, fst_pureM, hdt] at h1
  simp only [Bool.false_eq_true, if_false] at h1
  injection h1 with h1
  exact h1.symm

/-- If the compile stage succeeds, the callbacks list it returns is exactly
the early-stopping callback of line 119. -/
theorem compileStage_okOut {p : Params} {env : Env} {model : Model}
    {out : List Callback} {u : List Event}
    (h : compileStage p env model = (.ok out, u)) :
    out = [Callback.earlyStopping 50 "val_loss"] := by
  have h1 := congrArg Prod.fst h
  simp only [compileStage, fst_bindM_readP, fst_bindM_callE, fst_pureM] at h1
  split at h1
  next a heq =>
    injection h1 with h1
    exact h1.symm
  next e0 heq => exact absurd h1 (by simp)

/-! ### The master pointwise trace invariant -/

/-- Pointwise invariant of every event the script can emit: the parameter
mapping is never written; every `fit` call uses validation split 1/10, the
configured batch size and epoch count, and the early-stopping callback, and
the plain fit site receives the input windows alone; every `evaluate` call
is at one of the four evaluation sites, the validation passes always carry
`trend=None` and no plot function, and with detrending off the test passes
carry `trend=None` as well. -/
def EvMaster (p : Params) (e : Event) : Prop :=
  (∀ k, e ≠ Event.paramWrite k) ∧
  (∀ s m a h, e = Event.fitCall s m a h →
      a.validation_split = 1/10 ∧ a.batch_size = p.batch_size ∧
      a.epochs = p.epochs ∧
      a.callbacks = [Callback.earlyStopping 50 "val_loss"] ∧
      (s = CallSite.fitCond ∨ s = CallSite.fitPlain) ∧
      (s = CallSite.fitPlain → ∃ x, a.x = FitX.plain x) ∧
      (p.exogenous = false → ∃ x, a.x = FitX.plain x)) ∧
  (∀ s a r, e = Event.evalCall s a r →
      (s = CallSite.evalValCond ∨ s = CallSite.evalValPlain ∨
       s = CallSite.evalTestCond ∨ s = CallSite.evalTestPlain) ∧
      ((s = CallSite.evalValCond ∨ s = CallSite.evalValPlain) →
          a.fn_inverse.trend = TrendVar.noneV ∧ a.fn_plot = none) ∧
      (p.detrend = false → a.fn_inverse.trend = TrendVar.noneV))

theorem evMaster_paramRead (p : Params) (k : String) :
    EvMaster p (Event.paramRead k) := by
  refine ⟨by simp, by simp, by simp⟩

/-- Every event in the trace of a run satisfies the master invariant. -/
theorem run_events (p : Params) (env : Env) :
    ∀ e ∈ (run p env).2, EvMaster p e := by
  show ∀ e ∈ (mainM p env).2, EvMaster p e
  unfold mainM
  refine eventsOK_bindM (fun _ => True) ?_ (fun _ _ _ => trivial) ?_
  · intro e he
    simp only [emitLog, List.mem_singleton] at he
    subst he
    exact ⟨by simp, by simp, by simp⟩
  intro _ _
  refine eventsOK_bindM
    (fun out => p.detrend = false → out.2.2.2.2 = TrendVar.noneV) ?_ ?_ ?_
  · exact eventsOK_loadDatasetStage _ p env (evMaster_paramRead p)
      (fun r => ⟨by simp, by simp, by simp⟩)
  · exact fun a u hu => loadDatasetStage_okOut hu
  intro load_out hload
  refine eventsOK_bindM (fun _ => True) ?_ (fun _ _ _ => trivial) ?_
  · exact eventsOK_windowTrainStage _ p env _ (evMaster_paramRead p)
      (fun r => ⟨by simp, by simp, by simp⟩)
  intro xy_train _
  refine eventsOK_bindM (fun _ => True) ?_ (fun _ _ _ => trivial) ?_
  · exact eventsOK_tcnArgsStage _ p (evMaster_paramRead p)
  intro tcn _
  refine eventsOK_bindM (fun _ => True) ?_ (fun _ _ _ => trivial) ?_
  · exact eventsOK_exogStage _ p env _ _ (evMaster_paramRead p)
      (fun _ r => ⟨by simp, by simp, by simp⟩)
      (fun _ r => ⟨by simp, by simp, by simp⟩)
  intro exog_out _
  refine eventsOK_bindM
    (fun t => p.detrend = false → t = TrendVar.noneV) ?_ ?_ ?_
  · exact eventsOK_trendStage _ p env _ (evMaster_paramRead p)
      (fun t0 t1 r _ _ => ⟨by simp, by simp, by simp⟩)
  · exact fun t u hu hdt => (trendStage_okOut hu hdt).trans (hload hdt)
  intro trend htrend
  refine eventsOK_bindM (fun _ => True) ?_ (fun _ _ _ => trivial) ?_
  · exact eventsOK_buildModelStage _ p env _ _ _ (evMaster_paramRead p)
      (fun r => ⟨by simp, by simp, by simp⟩)
      ⟨by simp, by simp, by simp⟩
      (fun m r => ⟨by simp, by simp, by simp⟩)
  intro model _
  refine eventsOK_bindM
    (fun c => c = [Callback.earlyStopping 50 "val_loss"]) ?_ ?_ ?_
  · exact eventsOK_compileStage _ p env _ (evMaster_paramRead p)
      (fun r => ⟨by simp, by simp, by simp⟩)
  · exact fun c u hu => compileStage_okOut hu
  intro callbacks hcbs
  subst hcbs
  refine eventsOK_bindM (fun _ => True) ?_ (fun _ _ _ => trivial) ?_
  · refine eventsOK_fitStage _ p env _ _ _ _ _ (evMaster_paramRead p) ?_ ?_
    · intro hex htt r
      refine ⟨by simp, ?_, by simp⟩
      intro s m a h hevent
      injection hevent with hs hm ha hh
      subst hs; subst ha
      refine ⟨rfl, rfl, rfl, rfl, Or.inl rfl, by simp, ?_⟩
      intro hfalse
      rw [hex] at hfalse
      exact absurd hfalse (by simp)
    · intro r
      refine ⟨by simp, ?_, by simp⟩
      intro s m a h hevent
      injection hevent with hs hm ha hh
      subst hs; subst ha
      exact ⟨rfl, rfl, rfl, rfl, Or.inr rfl, fun _ => ⟨_, rfl⟩,
        fun _ => ⟨_, rfl⟩⟩
  intro history _
  refine eventsOK_bindM (fun _ => True) ?_ (fun _ _ _ => trivial) ?_
  · exact eventsOK_saveStage _ p env _ (evMaster_paramRead p)
      (fun r => ⟨by simp, by simp, by simp⟩)
      ⟨by simp, by simp, by simp⟩
  intro model_filepath _
  refine eventsOK_bindM (fun _ => True) ?_ (fun _ _ _ => trivial) ?_
  · refine eventsOK_evalStage _ p env _ _ _ _ _ _ _ (evMaster_paramRead p)
      ?_ ?_ ?_
    · intro s r hs
      refine ⟨by simp, by simp, ?_⟩
      intro s' a r' hevent
      injection hevent with hs' ha hr'
      subst hs'; subst ha
      refine ⟨?_, fun _ => ⟨rfl, rfl⟩, fun _ => rfl⟩
      rcases hs with rfl | rfl
      · exact Or.inl rfl
      · exact Or.inr (Or.inl rfl)
    · intro hex htt r
      refine ⟨by simp, by simp, ?_⟩
      intro s' a r' hevent
      injection hevent with hs' ha hr'
      subst hs'; subst ha
      refine ⟨Or.inr (Or.inr (Or.inl rfl)), by simp, ?_⟩
      intro hdt
      exact htrend hdt
    · intro r
      refine ⟨by simp, by simp, ?_⟩
      intro s' a r' hevent
      injection hevent with hs' ha hr'
      subst hs'; subst ha
      refine ⟨Or.inr (Or.inr (Or.inr rfl)), by simp, ?_⟩
      intro hdt
      exact htrend hdt
  intro scores _
  intro e he
  simp only [finalStage, pureM, List.not_mem_nil] at he

/-! ### Call-site accounting: each call site executes at most once -/

theorem sites_loadDatasetStage (p : Params) (env : Env) :
    List.Sublist (sitesOf (loadDatasetStage p env).2) [CallSite.loadData] := by
  simp only [loadDatasetStage, sitesOf, snd_bindM_readP, snd_bindM_callE,
    snd_pureM, snd_callE, List.filterMap_cons, siteOf, List.filterMap_nil]
  repeat' split
  all_goals (try simp only [List.filterMap_cons, siteOf, List.filterMap_nil])
  all_goals decide

theorem sites_windowTrainStage (p : Params) (env : Env) (train : Arr) :
    List.Sublist (sitesOf (windowTrainStage p env train).2) [CallSite.rnnTrain] := by
  simp only [windowTrainStage, callRnn, sitesOf, snd_bindM_readP, snd_callE,
    List.filterMap_cons, siteOf, List.filterMap_nil]
  repeat' split
  all_goals (try simp only [List.filterMap_cons, siteOf, List.filterMap_nil])
  all_goals decide

theorem sites_tcnArgsStage (p : Params) :
    List.Sublist (sitesOf (tcnArgsStage p).2) [] := by
  simp only [tcnArgsStage, sitesOf, snd_bindM_readP, snd_pureM,
    List.filterMap_cons, siteOf, List.filterMap_nil]
  decide

theorem sites_exogStage (p : Params) (env : Env) (test y_train0 : Arr) :
    List.Sublist (sitesOf (exogStage p env test y_train0).2)
      [CallSite.rnnTestExog, CallSite.rnnTestPlain] := by
  simp only [exogStage, callRnn, sitesOf, snd_bindM_readP, snd_bindM_callE,
    snd_pureM, snd_callE, snd_mite, List.filterMap_cons, siteOf,
    List.filterMap_nil]
  repeat' split
  all_goals (try simp only [List.filterMap_cons, siteOf, List.filterMap_nil])
  all_goals decide

theorem sites_trendStage (p : Params) (env : Env) (t : TrendVar) :
    List.Sublist (sitesOf (trendStage p env t).2) [CallSite.rnnTrend] := by
  simp only [trendStage, callRnn, sitesOf, snd_bindM_readP, snd_bindM_callE,
    snd_bindM_trendIndex1, snd_pureM, snd_callE, snd_mite,
    List.filterMap_cons, siteOf, List.filterMap_nil]
  repeat' split
  all_goals (try simp only [List.filterMap_cons, siteOf, List.filterMap_nil])
  all_goals decide

theorem sites_buildModelStage (p : Params) (env : Env) (tcn : TCNArgs)
    (x_train : Arr) (cs : Option (Nat × Nat)) :
    List.Sublist (sitesOf (buildModelStage p env tcn x_train cs).2)
      [CallSite.buildModel, CallSite.logLoad, CallSite.loadWeights] := by
  rcases hl : p.load with _ | sP <;>
    simp only [buildModelStage, hl, sitesOf, snd_bindM_readP, snd_bindM_callE,
      snd_bindM_emitLog, snd_pureM, snd_callE, List.filterMap_cons, siteOf,
      List.filterMap_nil] <;>
    repeat' split
  all_goals (try simp only [List.filterMap_cons, siteOf, List.filterMap_nil])
  all_goals decide

theorem sites_compileStage (p : Params) (env : Env) (model : Model) :
    List.Sublist (sitesOf (compileStage p env model).2) [CallSite.compileSite] := by
  simp only [compileStage, sitesOf, snd_bindM_readP, snd_bindM_callE,
    snd_pureM, snd_callE, List.filterMap_cons, siteOf, List.filterMap_nil]
  repeat' split
  all_goals (try simp only [List.filterMap_cons, siteOf, List.filterMap_nil])
  all_goals decide

theorem sites_fitStage (p : Params) (env : Env) (model : Model)
    (x_train y_train : Arr) (exog : Option Arr) (cbs : List Callback) :
    List.Sublist (sitesOf (fitStage p env model x_train y_train exog cbs).2)
      [CallSite.fitCond, CallSite.fitPlain] := by
  simp only [fitStage, fitCondCall, fitPlainCall, sitesOf, snd_bindM_readP,
    snd_mite, snd_callE, List.filterMap_cons, siteOf, List.filterMap_nil]
  repeat' split
  all_goals (try simp only [List.filterMap_cons, siteOf, List.filterMap_nil])
  all_goals decide

theorem sites_saveStage (p : Params) (env : Env) (model : Model) :
    List.Sublist (sitesOf (saveStage p env model).2)
      [CallSite.saveWeights, CallSite.logSaved] := by
  simp only [saveStage, sitesOf, snd_bindM_readP, snd_bindM_callE,
    snd_bindM_emitLog, snd_pureM, snd_callE, List.filterMap_cons, siteOf,
    List.filterMap_nil]
  repeat' split
  all_goals (try simp only [List.filterMap_cons, siteOf, List.filterMap_nil])
  all_goals decide

theorem sites_evalStage (p : Params) (env : Env) (dataset : DatasetId)
    (scaler : Scaler) (trend : TrendVar) (history : History)
    (x_test y_test : Arr) (exog_var_test : Option Arr) :
    List.Sublist
      (sitesOf (evalStage p env dataset scaler trend history x_test y_test
        exog_var_test).2)
      [CallSite.evalValCond, CallSite.evalTestCond,
       CallSite.evalValPlain, CallSite.evalTestPlain] := by
  simp only [evalStage, callEval, sitesOf, snd_bindM_readP, snd_bindM_callE,
    snd_bindM_pureM, snd_pureM, snd_callE, snd_mite, List.filterMap_cons,
    siteOf, List.filterMap_nil]
  repeat' split
  all_goals (try simp only [List.filterMap_cons, siteOf, List.filterMap_nil])
  all_goals decide

/-- All call sites of the script, in program order. -/
def allSites : List CallSite :=
  [CallSite.logParams, CallSite.loadData, CallSite.rnnTrain,
   CallSite.rnnTestExog, CallSite.rnnTestPlain, CallSite.rnnTrend,
   CallSite.buildModel, CallSite.logLoad, CallSite.loadWeights,
   CallSite.compileSite, CallSite.fitCond, CallSite.fitPlain,
   CallSite.saveWeights, CallSite.logSaved, CallSite.evalValCond,
   CallSite.evalTestCond, CallSite.evalValPlain, CallSite.evalTestPlain]

/-- The call sites of any run's trace form a sublist of the site list in
program order: no site executes twice, i.e. no library call is retried. -/
theorem run_sites (p : Params) (env : Env) :
    List.Sublist (sitesOf (run p env).2) allSites := by
  show List.Sublist (sitesOf (mainM p env).2) allSites
  unfold mainM allSites
  refine sites_bindM
    (show List.Sublist (sitesOf (emitLog CallSite.logParams).2)
        [CallSite.logParams] from by simp [sitesOf, emitLog, siteOf])
    fun _ => ?_
  refine sites_bindM (sites_loadDatasetStage p env) fun load_out => ?_
  refine sites_bindM (sites_windowTrainStage p env _) fun xy_train => ?_
  refine sites_bindM (sites_tcnArgsStage p) fun tcn => ?_
  refine sites_bindM (sites_exogStage p env _ _) fun exog_out => ?_
  refine sites_bindM (sites_trendStage p env _) fun trend => ?_
  refine sites_bindM (sites_buildModelStage p env _ _ _) fun model => ?_
  refine sites_bindM (sites_compileStage p env _) fun callbacks => ?_
  refine sites_bindM (sites_fitStage p env _ _ _ _ _) fun history => ?_
  refine sites_bindM (sites_saveStage p env _) fun model_filepath => ?_
  refine sites_bindM (sites_evalStage p env _ _ _ _ _ _ _) fun scores => ?_
  show List.Sublist (sitesOf (finalStage env _ _ _ _).2) []
  simp [finalStage, sitesOf, pureM]

/-! ### Error propagation: an exception recorded in the trace is the result -/

theorem errP_readP {α : Type} (k : String) (v : α) : ErrP (readP k v) := by
  intro e he err herr
  simp only [readP, List.mem_singleton] at he
  subst he
  simp [errOf] at herr

theorem errP_emitLog (s : CallSite) : ErrP (emitLog s) := by
  intro e he err herr
  simp only [emitLog, List.mem_singleton] at he
  subst he
  simp [errOf] at herr

theorem errP_pureM {α : Type} (a : α) : ErrP (pureM a) := by
  intro e he err herr
  simp [pureM] at he

theorem errP_trendIndex1 (t : TrendVar) : ErrP (trendIndex1 t) := by
  cases t <;> intro e he err herr <;> simp [trendIndex1] at he

theorem errP_callE {α : Type} {mk : Except Err α → Event} {r : Except Err α}
    (h : ∀ err, errOf (mk r) = some err → r = Except.error err) :
    ErrP (callE mk r) := by
  intro e he err herr
  simp only [callE, List.mem_singleton] at he
  subst he
  exact h err herr

theorem errP_mite {α : Type} {c : Prop} [Decidable c] {m1 m2 : M α}
    (h1 : ErrP m1) (h2 : ErrP m2) : ErrP (if c then m1 else m2) := by
  by_cases hc : c
  · simpa [hc] using h1
  · simpa [hc] using h2

theorem errOf_loadDataCall (a : LoadArgs) (r : Except Err LoadResult) :
    ∀ err, errOf (Event.loadDataCall a r) = some err → r = Except.error err := by
  cases r <;> simp [errOf]

theorem errOf_rnnCall (s : CallSite) (a : RnnArgs) (r : Except Err (Arr × Arr)) :
    ∀ err, errOf (Event.rnnCall s a r) = some err → r = Except.error err := by
  cases r <;> simp [errOf]

theorem errOf_buildModelCall (t : TCNArgs) (b : BuildArgs) (r : Except Err Model) :
    ∀ err, errOf (Event.buildModelCall t b r) = some err → r = Except.error err := by
  cases r <;> simp [errOf]

theorem errOf_loadWeightsCall (m : Model) (path : Option String)
    (r : Except Err Unit) :
    ∀ err, errOf (Event.loadWeightsCall m path r) = some err →
      r = Except.error err := by
  cases r <;> simp [errOf]

theorem errOf_compileCall (m : Model) (a : CompileArgs) (r : Except Err Unit) :
    ∀ err, errOf (Event.compileCall m a r) = some err → r = Except.error err := by
  cases r <;> simp [errOf]

theorem errOf_fitCall (s : CallSite) (m : Model) (a : FitArgs)
    (r : Except Err History) :
    ∀ err, errOf (Event.fitCall s m a r) = some err → r = Except.error err := by
  cases r <;> simp [errOf]

theorem errOf_saveWeightsCall (m : Model) (path : String) (r : Except Err Unit) :
    ∀ err, errOf (Event.saveWeightsCall m path r) = some err →
      r = Except.error err := by
  cases r <;> simp [errOf]

theorem errOf_evalCall (s : CallSite) (a : EvalArgs) (r : Except Err (List Val)) :
    ∀ err, errOf (Event.evalCall s a r) = some err → r = Except.error err := by
  cases r <;> simp [errOf]

theorem errP_loadDatasetStage (p : Params) (env : Env) :
    ErrP (loadDatasetStage p env) := by
  unfold loadDatasetStage
  refine errP_bindM (errP_readP _ _) fun _ => ?_
  refine errP_bindM (errP_readP _ _) fun _ => ?_
  refine errP_bindM (errP_readP _ _) fun _ => ?_
  refine errP_bindM (errP_readP _ _) fun _ => ?_
  refine errP_bindM (errP_callE (errOf_loadDataCall _ _)) fun _ => ?_
  refine errP_bindM (errP_readP _ _) fun _ => ?_
  exact errP_pureM _

theorem errP_windowTrainStage (p : Params) (env : Env) (train : Arr) :
    ErrP (windowTrainStage p env train) := by
  unfold windowTrainStage callRnn
  refine errP_bindM (errP_readP _ _) fun _ => ?_
  refine errP_bindM (errP_readP _ _) fun _ => ?_
  refine errP_bindM (errP_readP _ _) fun _ => ?_
  exact errP_callE (errOf_rnnCall _ _ _)

theorem errP_tcnArgsStage (p : Params) : ErrP (tcnArgsStage p) := by
  unfold tcnArgsStage
  refine errP_bindM (errP_readP _ _) fun _ => ?_
  refine errP_bindM (errP_readP _ _) fun _ => ?_
  refine errP_bindM (errP_readP _ _) fun _ => ?_
  refine errP_bindM (errP_readP _ _) fun _ => ?_
  refine errP_bindM (errP_readP _ _) fun _ => ?_
  refine errP_bindM (errP_readP _ _) fun _ => ?_
  refine errP_bindM (errP_readP _ _) fun _ => ?_
  exact errP_pureM _

theorem errP_exogStage (p : Params) (env : Env) (test y_train0 : Arr) :
    ErrP (exogStage p env test y_train0) := by
  unfold exogStage callRnn
  refine errP_bindM (errP_readP _ _) fun ex => ?_
  refine errP_mite ?_ ?_
  · refine errP_bindM (errP_readP _ _) fun _ => ?_
    refine errP_bindM (errP_readP _ _) fun _ => ?_
    refine errP_bindM (errP_callE (errOf_rnnCall _ _ _)) fun _ => ?_
    exact errP_pureM _
  · refine errP_bindM (errP_readP _ _) fun _ => ?_
    refine errP_bindM (errP_readP _ _) fun _ => ?_
    refine errP_bindM (errP_callE (errOf_rnnCall _ _ _)) fun _ => ?_
    exact errP_pureM _

theorem errP_trendStage (p : Params) (env : Env) (t : TrendVar) :
    ErrP (trendStage p env t) := by
  unfold trendStage callRnn
  refine errP_bindM (errP_readP _ _) fun dt => ?_
  refine errP_mite ?_ (errP_pureM _)
  refine errP_bindM (errP_trendIndex1 _) fun _ => ?_
  refine errP_bindM (errP_readP _ _) fun _ => ?_
  refine errP_bindM (errP_readP _ _) fun _ => ?_
  refine errP_bindM (errP_callE (errOf_rnnCall _ _ _)) fun _ => ?_
  exact errP_pureM _

theorem errP_buildModelStage (p : Params) (env : Env) (tcn : TCNArgs)
    (x_train : Arr) (cs : Option (Nat × Nat)) :
    ErrP (buildModelStage p env tcn x_train cs) := by
  unfold buildModelStage
  refine errP_bindM (errP_readP _ _) fun _ => ?_
  refine errP_bindM (errP_callE (errOf_buildModelCall _ _ _)) fun _ => ?_
  refine errP_bindM (errP_readP _ _) fun ld => ?_
  cases ld with
  | none => exact errP_pureM _
  | some sP =>
      refine errP_bindM (errP_readP _ _) fun _ => ?_
      refine errP_bindM (errP_emitLog _) fun _ => ?_
      refine errP_bindM (errP_readP _ _) fun _ => ?_
      refine errP_bindM (errP_callE (errOf_loadWeightsCall _ _ _)) fun _ => ?_
      exact errP_pureM _

theorem errP_compileStage (p : Params) (env : Env) (model : Model) :
    ErrP (compileStage p env model) := by
  unfold compileStage
  refine errP_bindM (errP_readP _ _) fun _ => ?_
  refine errP_bindM (errP_callE (errOf_compileCall _ _ _)) fun _ => ?_
  exact errP_pureM _

theorem errP_fitStage (p : Params) (env : Env) (model : Model)
    (x_train y_train : Arr) (exog : Option Arr) (cbs : List Callback) :
    ErrP (fitStage p env model x_train y_train exog cbs) := by
  unfold fitStage fitCondCall fitPlainCall
  refine errP_bindM (errP_readP _ _) fun ex => ?_
  refine errP_mite ?_ ?_
  · refine errP_bindM (errP_readP _ _) fun tt => ?_
    refine errP_mite ?_ ?_
    · refine errP_bindM (errP_readP _ _) fun _ => ?_
      refine errP_bindM (errP_readP _ _) fun _ => ?_
      exact errP_callE (errOf_fitCall _ _ _ _)
    · refine errP_bindM (errP_readP _ _) fun _ => ?_
      refine errP_bindM (errP_readP _ _) fun _ => ?_
      exact errP_callE (errOf_fitCall _ _ _ _)
  · refine errP_bindM (errP_readP _ _) fun _ => ?_
    refine errP_bindM (errP_readP _ _) fun _ => ?_
    exact errP_callE (errOf_fitCall _ _ _ _)

theorem errP_saveStage (p : Params) (env : Env) (model : Model) :
    ErrP (saveStage p env model) := by
  unfold saveStage
  refine errP_bindM (errP_readP _ _) fun _ => ?_
  refine errP_bindM (errP_readP _ _) fun _ => ?_
  refine errP_bindM (errP_callE (errOf_saveWeightsCall _ _ _)) fun _ => ?_
  refine errP_bindM (errP_emitLog _) fun _ => ?_
  exact errP_pureM _

theorem errP_evalStage (p : Params) (env : Env) (dataset : DatasetId)
    (scaler : Scaler) (trend : TrendVar) (history : History)
    (x_test y_test : Arr) (exog_var_test : Option Arr) :
    ErrP (evalStage p env dataset scaler trend history x_test y_test
      exog_var_test) := by
  unfold evalStage callEval
  refine errP_bindM (errP_readP _ _) fun ex => ?_
  refine errP_mite ?_ ?_
  · refine errP_bindM (errP_readP _ _) fun tt => ?_
    refine errP_mite ?_ ?_
    · refine errP_bindM (errP_callE (errOf_evalCall _ _ _)) fun _ => ?_
      refine errP_bindM (errP_callE (errOf_evalCall _ _ _)) fun _ => ?_
      exact errP_pureM _
    · refine errP_bindM (errP_callE (errOf_evalCall _ _ _)) fun _ => ?_
      refine errP_bindM (errP_callE (errOf_evalCall _ _ _)) fun _ => ?_
      exact errP_pureM _
  · refine errP_bindM (errP_callE (errOf_evalCall _ _ _)) fun _ => ?_
    refine errP_bindM (errP_callE (errOf_evalCall _ _ _)) fun _ => ?_
    exact errP_pureM _

theorem errP_finalStage (env : Env) (model : Model)
    (val_scores test_scores : List Val) (model_filepath : String) :
    ErrP (finalStage env model val_scores test_scores model_filepath) := by
  unfold finalStage
  exact errP_pureM _

/-- Any exception recorded by a library call in the trace is exactly the
run's result: the script swallows nothing and rewrites nothing. -/
theorem run_errP (p : Params) (env : Env) : ErrP (run p env) := by
  show ErrP (mainM p env)
  unfold mainM
  refine errP_bindM (errP_emitLog _) fun _ => ?_
  refine errP_bindM (errP_loadDatasetStage p env) fun load_out => ?_
  refine errP_bindM (errP_windowTrainStage p env _) fun xy_train => ?_
  refine errP_bindM (errP_tcnArgsStage p) fun tcn => ?_
  refine errP_bindM (errP_exogStage p env _ _) fun exog_out => ?_
  refine errP_bindM (errP_trendStage p env _) fun trend => ?_
  refine errP_bindM (errP_buildModelStage p env _ _ _) fun model => ?_
  refine errP_bindM (errP_compileStage p env _) fun callbacks => ?_
  refine errP_bindM (errP_fitStage p env _ _ _ _ _) fun history => ?_
  refine errP_bindM (errP_saveStage p env _) fun model_filepath => ?_
  refine errP_bindM (errP_evalStage p env _ _ _ _ _ _ _) fun scores => ?_
  exact errP_finalStage env _ _ _ _

/-! ### Inversion lemmas for successful stage runs -/

/-- The `TCNModel(...)` arguments as a function of the parameters
(lines 68-77). -/
def tcnArgsFor (p : Params) : TCNArgs :=
  { layers := p.layers, filters := p.out_channels, kernel_size := p.kernel_size,
    kernel_init := "glorot_normal", kernel_regularizer := ⟨p.l2_reg⟩,
    bias_regularizer := ⟨p.l2_reg⟩, dilation_rate := p.dilation,
    use_bias := false, return_sequence := true, tcn_type := p.tcn_type }

/-- The weights file path of lines 139-141. -/
def weightsPathFor (p : Params) (env : Env) : String :=
  pyPathJoin env.config_weights
    (p.tcn_type ++ "_" ++ p.dataset ++ "_" ++ env.time_str)

/-- The metric names of line 159. -/
def metricsNamesOf (env : Env) (m : Model) : List String :=
  (env.model_metrics m).map metricName

theorem loadDatasetStage_okInv {p : Params} {env : Env}
    {out : DatasetId × Scaler × Arr × Arr × TrendVar} {u : List Event}
    (h : loadDatasetStage p env = (.ok out, u)) :
    ∃ d, env.load_data (loadArgsFor p) = Except.ok d ∧
      out = (selectDataset p.dataset, d.scaler, d.train, d.test,
             if !p.detrend then TrendVar.noneV else d.trend) ∧
      Event.loadDataCall (loadArgsFor p) (Except.ok d) ∈ u := by
  have h1 := congrArg Prod.fst h
  have h2 := congrArg Prod.snd h
  simp only [loadDatasetStage, fst_bindM_readP, fst_bindM_callE, fst_pureM] at h1
  simp only [loadDatasetStage, snd_bindM_readP, snd_bindM_callE,
    snd_bindM_pureM, snd_pureM] at h2
  split at h1
  next d heq =>
    injection h1 with h1
    refine ⟨d, heq, h1.symm, ?_⟩
    rw [← h2]
    simp [heq, loadArgsFor]
  next e0 heq => exact absurd h1 (by simp)

theorem windowTrainStage_okInv {p : Params} {env : Env} {train : Arr}
    {out : Arr × Arr} {u : List Event}
    (h : windowTrainStage p env train = (.ok out, u)) :
    env.get_rnn_inputs
      { data := train, window_size := p.input_sequence_length,
        horizon := p.output_sequence_length, shuffle := true,
        multivariate_output := p.exogenous } = Except.ok out ∧
    Event.rnnCall CallSite.rnnTrain
      { data := train, window_size := p.input_sequence_length,
        horizon := p.output_sequence_length, shuffle := true,
        multivariate_output := p.exogenous } (Except.ok out) ∈ u := by
  have h1 := congrArg Prod.fst h
  have h2 := congrArg Prod.snd h
  simp only [windowTrainStage, callRnn, fst_bindM_readP, callE] at h1
  simp only [windowTrainStage, callRnn, snd_bindM_readP, callE] at h2
  refine ⟨h1, ?_⟩
  rw [← h2, h1]
  simp

theorem tcnArgsStage_okInv {p : Params} {out : TCNArgs} {u : List Event}
    (h : tcnArgsStage p = (.ok out, u)) : out = tcnArgsFor p := by
  have h1 := congrArg Prod.fst h
  simp only [tcnArgsStage, fst_bindM_readP, fst_pureM] at h1
  injection h1 with h1
  exact h1.symm

theorem exogStage_okInv {p : Params} {env : Env} {test y0 : Arr}
    {out : Arr × Option Arr × Arr × Arr × Option Arr × Option (Nat × Nat)}
    {u : List Event} (h : exogStage p env test y0 = (.ok out, u)) :
    (p.exogenous = true → ∃ xy, env.get_rnn_inputs
        { data := test, window_size := p.input_sequence_length,
          horizon := p.output_sequence_length, shuffle := false,
          multivariate_output := true } = Except.ok xy ∧
      out = (Arr.sliceFirstFeature y0, some (Arr.sliceRestFeatures y0), xy.1,
             Arr.sliceFirstFeature xy.2, some (Arr.sliceRestFeatures xy.2),
             some (env.shape1 (Arr.sliceRestFeatures y0),
                   env.shapeLast (Arr.sliceRestFeatures y0))) ∧
      Event.rnnCall CallSite.rnnTestExog
        { data := test, window_size := p.input_sequence_length,
          horizon := p.output_sequence_length, shuffle := false,
          multivariate_output := true } (Except.ok xy) ∈ u) ∧
    (p.exogenous = false → ∃ xy, env.get_rnn_inputs
        { data := test, window_size := p.input_sequence_length,
          horizon := p.output_sequence_length, shuffle := false,
          multivariate_output := false } = Except.ok xy ∧
      out = (y0, none, xy.1, xy.2, none, none) ∧
      Event.rnnCall CallSite.rnnTestPlain
        { data := test, window_size := p.input_sequence_length,
          horizon := p.output_sequence_length, shuffle := false,
          multivariate_output := false } (Except.ok xy) ∈ u) := by
  constructor
  · intro hex
    have h1 := congrArg Prod.fst h
    have h2 := congrArg Prod.snd h
    simp only [exogStage, callRnn, hex, if_true, fst_bindM_readP,
      fst_bindM_callE, fst_pureM] at h1
    simp only [exogStage, callRnn, hex, if_true, snd_bindM_readP,
      snd_bindM_callE, snd_pureM] at h2
    split at h1
    next xy heq =>
      injection h1 with h1
      refine ⟨xy, heq, h1.symm, ?_⟩
      rw [← h2]
      simp [heq]
    next e0 heq => exact absurd h1 (by simp)
  · intro hex
    have h1 := congrArg Prod.fst h
    have h2 := congrArg Prod.snd h
    simp only [exogStage, callRnn, hex, Bool.false_eq_true, if_false,
      fst_bindM_readP, fst_bindM_callE, fst_pureM] at h1
    simp only [exogStage, callRnn, hex, Bool.false_eq_true, if_false,
      snd_bindM_readP, snd_bindM_callE, snd_pureM] at h2
    split at h1
    next xy heq =>
      injection h1 with h1
      refine ⟨xy, heq, h1.symm, ?_⟩
      rw [← h2]
      simp [heq]
    next e0 heq => exact absurd h1 (by simp)

theorem trendStage_okInv {p : Params} {env : Env} {t : TrendVar}
    {out : TrendVar} {u : List Event}
    (h : trendStage p env t = (.ok out, u)) :
    (p.detrend = true → ∃ t0 t1 xy, t = TrendVar.pairV t0 t1 ∧
      env.get_rnn_inputs
        { data := t1, window_size := p.input_sequence_length,
          horizon := p.output_sequence_length, shuffle := false,
          multivariate_output := false } = Except.ok xy ∧
      out = TrendVar.arrV xy.2 ∧
      Event.rnnCall CallSite.rnnTrend
        { data := t1, window_size := p.input_sequence_length,
          horizon := p.output_sequence_length, shuffle := false,
          multivariate_output := false } (Except.ok xy) ∈ u) ∧
    (p.detrend = false → out = t) := by
  constructor
  · intro hdt
    have h1 := congrArg Prod.fst h
    have h2 := congrArg Prod.snd h
    simp only [trendStage, callRnn, hdt, if_true, fst_bindM_readP,
      snd_bindM_readP] at h1 h2
    cases t with
    | pairV t0 t1 =>
        simp only [trendIndex1, fst_bindM_okPair, snd_bindM_okPair,
          fst_bindM_readP, fst_bindM_callE, fst_pureM, snd_bindM_readP,
          snd_bindM_callE, snd_bindM_pureM, snd_pureM,
          List.nil_append] at h1 h2
        split at h1
        next xy heq =>
          injection h1 with h1
          refine ⟨t0, t1, xy, rfl, heq, h1.symm, ?_⟩
          rw [← h2]
          simp [heq]
        next e0 heq => exact absurd h1 (by simp)
    | noneV =>
        simp only [trendIndex1, fst_bindM_errPair] at h1
        exact absurd h1 (by simp)
    | arrV a =>
        simp only [trendIndex1, fst_bindM_errPair] at h1
        exact absurd h1 (by simp)
  · intro hdt
    have h1 := congrArg Prod.fst h
    simp only [trendStage, hdt, Bool.false_eq_true, if_false,
      fst_bindM_readP, fst_pureM] at h1
    injection h1 with h1
    exact h1.symm

theorem buildModelStage_okInv {p : Params} {env : Env} {tcn : TCNArgs}
    {x_train : Arr} {cs : Option (Nat × Nat)} {out : Model} {u : List Event}
    (h : buildModelStage p env tcn x_train cs = (.ok out, u)) :
    ∃ bargs, env.build_model tcn bargs = Except.ok out ∧
      bargs = { input_shape := (env.shape1 x_train, env.shapeLast x_train),
                horizon := p.output_sequence_length, conditions_shape := cs,
                use_final_dense := true } ∧
      Event.buildModelCall tcn bargs (Except.ok out) ∈ u := by
  have h1 := congrArg Prod.fst h
  have h2 := congrArg Prod.snd h
  simp only [buildModelStage, fst_bindM_readP, fst_bindM_callE, fst_pureM,
    snd_bindM_readP, snd_bindM_callE, snd_bindM_emitLog, snd_bindM_pureM,
    snd_pureM] at h1 h2
  split at h1
  next mdl heq =>
    rcases hl : p.load with _ | sP <;> rw [hl] at h1 h2
    · injection h1 with h1
      subst h1
      refine ⟨_, heq, rfl, ?_⟩
      rw [← h2]
      simp [heq]
    · simp only [fst_bindM_readP, fst_bindM_emitLog, fst_bindM_callE,
        snd_bindM_readP, snd_bindM_emitLog, snd_bindM_callE, fst_pureM,
        snd_pureM] at h1 h2
      split at h1
      next heq2 =>
        injection h1 with h1
        subst h1
        refine ⟨_, heq, rfl, ?_⟩
        rw [← h2]
        simp [heq]
      next e2 heq2 => exact absurd h1 (by simp)
  next e0 heq => exact absurd h1 (by simp)

theorem compileStage_okInv {p : Params} {env : Env} {model : Model}
    {out : List Callback} {u : List Event}
    (h : compileStage p env model = (.ok out, u)) :
    out = [Callback.earlyStopping 50 "val_loss"] ∧
    env.compileModel model
      { optimizer := { learning_rate := p.learning_rate }, loss := ["mse"],
        metrics := env.metricsModule } = Except.ok () ∧
    Event.compileCall model
      { optimizer := { learning_rate := p.learning_rate }, loss := ["mse"],
        metrics := env.metricsModule } (Except.ok ()) ∈ u := by
  have h1 := congrArg Prod.fst h
  have h2 := congrArg Prod.snd h
  simp only [compileStage, fst_bindM_readP, fst_bindM_callE, fst_pureM,
    snd_bindM_readP, snd_bindM_callE, snd_pureM] at h1 h2
  split at h1
  next a heq =>
    injection h1 with h1
    refine ⟨h1.symm, ?_, ?_⟩
    · rw [heq]
    · rw [← h2]
      simp [heq]
  next e0 heq => exact absurd h1 (by simp)

theorem fst_callE {α : Type} (mk : Except Err α → Event) (r : Except Err α) :
    (callE mk r).1 = r := rfl

theorem fitCondCall_okInv {p : Params} {env : Env} {model : Model}
    {x_train y_train : Arr} {exog : Option Arr} {cbs : List Callback}
    {out : History} {u : List Event}
    (h : fitCondCall p env model x_train y_train exog cbs = (.ok out, u)) :
    env.fit model
      { x := FitX.withExog x_train exog, y := y_train, validation_split := 1/10,
        batch_size := p.batch_size, epochs := p.epochs, callbacks := cbs,
        verbose := 2 } = Except.ok out ∧
    Event.fitCall CallSite.fitCond model
      { x := FitX.withExog x_train exog, y := y_train, validation_split := 1/10,
        batch_size := p.batch_size, epochs := p.epochs, callbacks := cbs,
        verbose := 2 } (Except.ok out) ∈ u := by
  have h1 := congrArg Prod.fst h
  have h2 := congrArg Prod.snd h
  simp only [fitCondCall, fst_bindM_readP, snd_bindM_readP, fst_callE,
    snd_callE] at h1 h2
  refine ⟨h1, ?_⟩
  rw [← h2, h1]
  exact List.mem_cons_of_mem _ (List.mem_cons_of_mem _ (List.mem_cons_self _ _))

theorem fitPlainCall_okInv {p : Params} {env : Env} {model : Model}
    {x_train y_train : Arr} {cbs : List Callback}
    {out : History} {u : List Event}
    (h : fitPlainCall p env model x_train y_train cbs = (.ok out, u)) :
    env.fit model
      { x := FitX.plain x_train, y := y_train, validation_split := 1/10,
        batch_size := p.batch_size, epochs := p.epochs, callbacks := cbs,
        verbose := 2 } = Except.ok out ∧
    Event.fitCall CallSite.fitPlain model
      { x := FitX.plain x_train, y := y_train, validation_split := 1/10,
        batch_size := p.batch_size, epochs := p.epochs, callbacks := cbs,
        verbose := 2 } (Except.ok out) ∈ u := by
  have h1 := congrArg Prod.fst h
  have h2 := congrArg Prod.snd h
  simp only [fitPlainCall, fst_bindM_readP, snd_bindM_readP, fst_callE,
    snd_callE] at h1 h2
  refine ⟨h1, ?_⟩
  rw [← h2, h1]
  exact List.mem_cons_of_mem _ (List.mem_cons_of_mem _ (List.mem_cons_self _ _))

theorem fitStage_okInv {p : Params} {env : Env} {model : Model}
    {x_train y_train : Arr} {exog : Option Arr} {cbs : List Callback}
    {out : History} {u : List Event}
    (h : fitStage p env model x_train y_train exog cbs = (.ok out, u)) :
    (condFit p = true →
      env.fit model
        { x := FitX.withExog x_train exog, y := y_train,
          validation_split := 1/10, batch_size := p.batch_size,
          epochs := p.epochs, callbacks := cbs, verbose := 2 } = Except.ok out ∧
      Event.fitCall CallSite.fitCond model
        { x := FitX.withExog x_train exog, y := y_train,
          validation_split := 1/10, batch_size := p.batch_size,
          epochs := p.epochs, callbacks := cbs, verbose := 2 }
        (Except.ok out) ∈ u) ∧
    (condFit p = false →
      env.fit model
        { x := FitX.plain x_train, y := y_train,
          validation_split := 1/10, batch_size := p.batch_size,
          epochs := p.epochs, callbacks := cbs, verbose := 2 } = Except.ok out ∧
      Event.fitCall CallSite.fitPlain model
        { x := FitX.plain x_train, y := y_train,
          validation_split := 1/10, batch_size := p.batch_size,
          epochs := p.epochs, callbacks := cbs, verbose := 2 }
        (Except.ok out) ∈ u) := by
  constructor
  · intro hc
    rw [condFit, Bool.and_eq_true, beq_iff_eq] at hc
    obtain ⟨hex, htt⟩ := hc
    have h1 := congrArg Prod.fst h
    have h2 := congrArg Prod.snd h
    simp only [fitStage, hex, htt, if_true, beq_self_eq_true,
      fst_bindM_readP, snd_bindM_readP] at h1 h2
    have h' : fitCondCall p env model x_train y_train exog cbs =
        (Except.ok out, (fitCondCall p env model x_train y_train exog cbs).2) :=
      Prod.ext h1 rfl
    obtain ⟨hfit, hmem⟩ := fitCondCall_okInv h'
    exact ⟨hfit, by
      rw [← h2]
      exact List.mem_cons_of_mem _ (List.mem_cons_of_mem _ hmem)⟩
  · intro hc
    cases hex : p.exogenous with
    | false =>
        have h1 := congrArg Prod.fst h
        have h2 := congrArg Prod.snd h
        simp only [fitStage, hex, Bool.false_eq_true, if_false,
          fst_bindM_readP, snd_bindM_readP] at h1 h2
        have h' : fitPlainCall p env model x_train y_train cbs =
            (Except.ok out, (fitPlainCall p env model x_train y_train cbs).2) :=
          Prod.ext h1 rfl
        obtain ⟨hfit, hmem⟩ := fitPlainCall_okInv h'
        exact ⟨hfit, by
          rw [← h2]
          exact List.mem_cons_of_mem _ hmem⟩
    | true =>
        have hbf : (p.tcn_type == "conditional_tcn") = false := by
          revert hc
          simp [condFit, hex]
        have h1 := congrArg Prod.fst h
        have h2 := congrArg Prod.snd h
        simp only [fitStage, hex, hbf, if_true, Bool.false_eq_true, if_false,
          fst_bindM_readP, snd_bindM_readP] at h1 h2
        have h' : fitPlainCall p env model x_train y_train cbs =
            (Except.ok out, (fitPlainCall p env model x_train y_train cbs).2) :=
          Prod.ext h1 rfl
        obtain ⟨hfit, hmem⟩ := fitPlainCall_okInv h'
        exact ⟨hfit, by
          rw [← h2]
          exact List.mem_cons_of_mem _ (List.mem_cons_of_mem _ hmem)⟩

theorem saveStage_okInv {p : Params} {env : Env} {model : Model}
    {out : String} {u : List Event}
    (h : saveStage p env model = (.ok out, u)) :
    out = weightsPathFor p env ∧
    env.save_weights model (weightsPathFor p env) = Except.ok () ∧
    Event.saveWeightsCall model (weightsPathFor p env) (Except.ok ()) ∈ u := by
  have h1 := congrArg Prod.fst h
  have h2 := congrArg Prod.snd h
  simp only [saveStage, fst_bindM_readP, fst_bindM_callE, fst_bindM_emitLog,
    fst_pureM, snd_bindM_readP, snd_bindM_callE, snd_bindM_emitLog,
    snd_pureM] at h1 h2
  split at h1
  next a heq =>
    cases a
    injection h1 with h1
    subst h1
    refine ⟨rfl, ?_, ?_⟩
    · rw [← heq]
      rfl
    · rw [← h2]
      simp only [weightsPathFor]
      simp [heq]
  next e0 heq => exact absurd h1 (by simp)

theorem evalStage_okInv {p : Params} {env : Env} {dataset : DatasetId}
    {scaler : Scaler} {trend : TrendVar} {history : History}
    {x_test y_test : Arr} {exog_var_test : Option Arr}
    {out : List Val × List Val} {u : List Event}
    (h : evalStage p env dataset scaler trend history x_test y_test
      exog_var_test = (.ok out, u)) :
    (condFit p = true →
      Event.evalCall CallSite.evalValCond
        { data := EvalData.valList (env.validation_data history).dropLast,
          fn_inverse := { datasetId := dataset, scaler := scaler,
                          trend := TrendVar.noneV },
          fn_plot := none } (Except.ok out.1) ∈ u ∧
      Event.evalCall CallSite.evalTestCond
        { data := EvalData.testExog x_test exog_var_test y_test,
          fn_inverse := { datasetId := dataset, scaler := scaler, trend := trend },
          fn_plot := some { samples_per_day := env.samples_per_day dataset,
                            save_at := none } } (Except.ok out.2) ∈ u) ∧
    (condFit p = false →
      Event.evalCall CallSite.evalValPlain
        { data := EvalData.valList (env.validation_data history).dropLast,
          fn_inverse := { datasetId := dataset, scaler := scaler,
                          trend := TrendVar.noneV },
          fn_plot := none } (Except.ok out.1) ∈ u ∧
      Event.evalCall CallSite.evalTestPlain
        { data := EvalData.testPlain x_test y_test,
          fn_inverse := { datasetId := dataset, scaler := scaler, trend := trend },
          fn_plot := some { samples_per_day := env.samples_per_day dataset,
                            save_at := none } } (Except.ok out.2) ∈ u) := by
  constructor
  · intro hc
    rw [condFit, Bool.and_eq_true, beq_iff_eq] at hc
    obtain ⟨hex, htt⟩ := hc
    have h1 := congrArg Prod.fst h
    have h2 := congrArg Prod.snd h
    simp only [evalStage, callEval, hex, htt, if_true, beq_self_eq_true,
      fst_bindM_readP, fst_bindM_callE, fst_pureM, snd_bindM_readP,
      snd_bindM_callE, snd_bindM_pureM, snd_pureM] at h1 h2
    split at h1
    next vsc heq1 =>
      split at h1
      next tsc heq2 =>
        injection h1 with h1
        subst h1
        rw [← h2]
        constructor
        · simp [heq1]
        · simp [heq1, heq2]
      next e2 heq2 => exact absurd h1 (by simp)
    next e1 heq1 => exact absurd h1 (by simp)
  · intro hc
    cases hex : p.exogenous with
    | false =>
        have h1 := congrArg Prod.fst h
        have h2 := congrArg Prod.snd h
        simp only [evalStage, callEval, hex, Bool.false_eq_true, if_false,
          fst_bindM_readP, fst_bindM_callE, fst_pureM, snd_bindM_readP,
          snd_bindM_callE, snd_bindM_pureM, snd_pureM] at h1 h2
        split at h1
        next vsc heq1 =>
          split at h1
          next tsc heq2 =>
            injection h1 with h1
            subst h1
            rw [← h2]
            constructor
            · simp [heq1]
            · simp [heq1, heq2]
          next e2 heq2 => exact absurd h1 (by simp)
        next e1 heq1 => exact absurd h1 (by simp)
    | true =>
        have hbf : (p.tcn_type == "conditional_tcn") = false := by
          revert hc
          simp [condFit, hex]
        have h1 := congrArg Prod.fst h
        have h2 := congrArg Prod.snd h
        simp only [evalStage, callEval, hex, hbf, if_true, Bool.false_eq_true,
          if_false, fst_bindM_readP, fst_bindM_callE, fst_pureM,
          snd_bindM_readP, snd_bindM_callE, snd_bindM_pureM, snd_pureM] at h1 h2
        split at h1
        next vsc heq1 =>
          split at h1
          next tsc heq2 =>
            injection h1 with h1
            subst h1
            rw [← h2]
            constructor
            · simp [heq1]
            · simp [heq1, heq2]
          next e2 heq2 => exact absurd h1 (by simp)
        next e1 heq1 => exact absurd h1 (by simp)

theorem finalStage_eq (env : Env) (model : Model)
    (val_scores test_scores : List Val) (model_filepath : String) :
    finalStage env model val_scores test_scores model_filepath =
      (Except.ok (pyDict ((metricsNamesOf env model).zip val_scores),
                  pyDict ((metricsNamesOf env model).zip test_scores),
                  model_filepath), []) := rfl

set_option maxHeartbeats 2000000 in
/-- Full characterisation of a successful run: the library calls it made,
with their arguments, and the returned triple. -/
theorem run_ok_shape (p : Params) (env : Env) (r : MainResult)
    (tr : List Event) (h : run p env = (.ok r, tr)) :
    ∃ (d : LoadResult) (xtr ytr0 : Arr) (trendF : TrendVar) (mdl : Model)
      (hist : History) (vsc tsc : List Val),
      env.load_data (loadArgsFor p) = Except.ok d ∧
      Event.loadDataCall (loadArgsFor p) (Except.ok d) ∈ tr ∧
      Event.rnnCall CallSite.rnnTrain
        { data := d.train, window_size := p.input_sequence_length,
          horizon := p.output_sequence_length, shuffle := true,
          multivariate_output := p.exogenous } (Except.ok (xtr, ytr0)) ∈ tr ∧
      (∃ bargs, Event.buildModelCall (tcnArgsFor p) bargs (Except.ok mdl) ∈ tr) ∧
      (Event.compileCall mdl
        { optimizer := { learning_rate := p.learning_rate }, loss := ["mse"],
          metrics := env.metricsModule } (Except.ok ()) ∈ tr) ∧
      env.save_weights mdl (weightsPathFor p env) = Except.ok () ∧
      Event.saveWeightsCall mdl (weightsPathFor p env) (Except.ok ()) ∈ tr ∧
      r = (pyDict ((metricsNamesOf env mdl).zip vsc),
           pyDict ((metricsNamesOf env mdl).zip tsc),
           weightsPathFor p env) ∧
      (p.detrend = true → ∃ t0 t1 xtd ytd, d.trend = TrendVar.pairV t0 t1 ∧
        Event.rnnCall CallSite.rnnTrend
          { data := t1, window_size := p.input_sequence_length,
            horizon := p.output_sequence_length, shuffle := false,
            multivariate_output := false } (Except.ok (xtd, ytd)) ∈ tr ∧
        trendF = TrendVar.arrV ytd) ∧
      (p.detrend = false → trendF = TrendVar.noneV) ∧
      Event.evalCall
        (if condFit p then CallSite.evalValCond else CallSite.evalValPlain)
        { data := EvalData.valList (env.validation_data hist).dropLast,
          fn_inverse := { datasetId := selectDataset p.dataset,
                          scaler := d.scaler, trend := TrendVar.noneV },
          fn_plot := none } (Except.ok vsc) ∈ tr ∧
      (p.exogenous = true → ∃ xte yte0,
        Event.rnnCall CallSite.rnnTestExog
          { data := d.test, window_size := p.input_sequence_length,
            horizon := p.output_sequence_length, shuffle := false,
            multivariate_output := true } (Except.ok (xte, yte0)) ∈ tr ∧
        (condFit p = true →
          Event.fitCall CallSite.fitCond mdl
            { x := FitX.withExog xtr (some (Arr.sliceRestFeatures ytr0)),
              y := Arr.sliceFirstFeature ytr0, validation_split := 1/10,
              batch_size := p.batch_size, epochs := p.epochs,
              callbacks := [Callback.earlyStopping 50 "val_loss"],
              verbose := 2 } (Except.ok hist) ∈ tr ∧
          Event.evalCall CallSite.evalTestCond
            { data := EvalData.testExog xte (some (Arr.sliceRestFeatures yte0))
                        (Arr.sliceFirstFeature yte0),
              fn_inverse := { datasetId := selectDataset p.dataset,
                              scaler := d.scaler, trend := trendF },
              fn_plot := some { samples_per_day :=
                                  env.samples_per_day (selectDataset p.dataset),
                                save_at := none } } (Except.ok tsc) ∈ tr) ∧
        (condFit p = false →
          Event.fitCall CallSite.fitPlain mdl
            { x := FitX.plain xtr, y := Arr.sliceFirstFeature ytr0,
              validation_split := 1/10, batch_size := p.batch_size,
              epochs := p.epochs,
              callbacks := [Callback.earlyStopping 50 "val_loss"],
              verbose := 2 } (Except.ok hist) ∈ tr ∧
          Event.evalCall CallSite.evalTestPlain
            { data := EvalData.testPlain xte (Arr.sliceFirstFeature yte0),
              fn_inverse := { datasetId := selectDataset p.dataset,
                              scaler := d.scaler, trend := trendF },
              fn_plot := some { samples_per_day :=
                                  env.samples_per_day (selectDataset p.dataset),
                                save_at := none } } (Except.ok tsc) ∈ tr)) ∧
      (p.exogenous = false → ∃ xte yte0,
        Event.rnnCall CallSite.rnnTestPlain
          { data := d.test, window_size := p.input_sequence_length,
            horizon := p.output_sequence_length, shuffle := false,
            multivariate_output := false } (Except.ok (xte, yte0)) ∈ tr ∧
        Event.fitCall CallSite.fitPlain mdl
          { x := FitX.plain xtr, y := ytr0, validation_split := 1/10,
            batch_size := p.batch_size, epochs := p.epochs,
            callbacks := [Callback.earlyStopping 50 "val_loss"],
            verbose := 2 } (Except.ok hist) ∈ tr ∧
        Event.evalCall CallSite.evalTestPlain
          { data := EvalData.testPlain xte yte0,
            fn_inverse := { datasetId := selectDataset p.dataset,
                            scaler := d.scaler, trend := trendF },
            fn_plot := some { samples_per_day :=
                                env.samples_per_day (selectDataset p.dataset),
                              save_at := none } } (Except.ok tsc) ∈ tr) := by
  have h' : mainM p env = (.ok r, tr) := h
  rw [mainM] at h'
  obtain ⟨_, u0, rest0, hlog, h', htr0⟩ := bindM_ok h'
  obtain ⟨load_out, u1, rest1, hload, h', htr1⟩ := bindM_ok h'
  obtain ⟨xy_train, u2, rest2, hwin, h', htr2⟩ := bindM_ok h'
  obtain ⟨tcn, u3, rest3, htcn, h', htr3⟩ := bindM_ok h'
  obtain ⟨exog_out, u4, rest4, hexog, h', htr4⟩ := bindM_ok h'
  obtain ⟨trend, u5, rest5, htrend, h', htr5⟩ := bindM_ok h'
  obtain ⟨mdl, u6, rest6, hbuild, h', htr6⟩ := bindM_ok h'
  obtain ⟨cbs, u7, rest7, hcomp, h', htr7⟩ := bindM_ok h'
  obtain ⟨hist, u8, rest8, hfit, h', htr8⟩ := bindM_ok h'
  obtain ⟨mp, u9, rest9, hsave, h', htr9⟩ := bindM_ok h'
  obtain ⟨scores, u10, rest10, heval, h', htr10⟩ := bindM_ok h'
  rw [finalStage_eq] at h'
  injection h' with hok hrest
  injection hok with hres
  subst hrest
  subst htr10
  subst htr9
  subst htr8
  subst htr7
  subst htr6
  subst htr5
  subst htr4
  subst htr3
  subst htr2
  subst htr1
  subst htr0
  subst hres
  obtain ⟨d, hld, hout, hm1⟩ := loadDatasetStage_okInv hload
  subst hout
  obtain ⟨hwinEq, hm2⟩ := windowTrainStage_okInv hwin
  have htcnEq := tcnArgsStage_okInv htcn
  subst htcnEq
  obtain ⟨hexT, hexF⟩ := exogStage_okInv hexog
  obtain ⟨htrT, htrF⟩ := trendStage_okInv htrend
  obtain ⟨bargs, hbldEq, hbargsEq, hm6⟩ := buildModelStage_okInv hbuild
  obtain ⟨hcbsEq, hcompEq, hm7⟩ := compileStage_okInv hcomp
  subst hcbsEq
  obtain ⟨hfitT, hfitF⟩ := fitStage_okInv hfit
  obtain ⟨hpathEq, hswEq, hm9⟩ := saveStage_okInv hsave
  subst hpathEq
  obtain ⟨hevT, hevF⟩ := evalStage_okInv heval
  refine ⟨d, xy_train.1, xy_train.2, trend, mdl, hist, scores.1, scores.2,
    hld, ?_, ?_, ⟨bargs, ?_⟩, ?_, hswEq, ?_, rfl, ?_, ?_, ?_, ?_, ?_⟩
  · exact List.mem_append_right _ (List.mem_append_left _ hm1)
  · exact List.mem_append_right _ (List.mem_append_right _ (List.mem_append_left _ hm2))
  · exact List.mem_append_right _ (List.mem_append_right _ (List.mem_append_right _ (List.mem_append_right _ (List.mem_append_right _ (List.mem_append_right _ (List.mem_append_left _ hm6))))))
  · exact List.mem_append_right _ (List.mem_append_right _ (List.mem_append_right _ (List.mem_append_right _ (List.mem_append_right _ (List.mem_append_right _ (List.mem_append_right _ (List.mem_append_left _ hm7)))))))
  · exact List.mem_append_right _ (List.mem_append_right _ (List.mem_append_right _ (List.mem_append_right _ (List.mem_append_right _ (List.mem_append_right _ (List.mem_append_right _ (List.mem_append_right _ (List.mem_append_right _ (List.mem_append_left _ hm9)))))))))
  · intro hdt
    obtain ⟨t0, t1, xy, hpair, heqD, houtD, hmemD⟩ := htrT hdt
    refine ⟨t0, t1, xy.1, xy.2, ?_, ?_, ?_⟩
    · simpa [hdt] using hpair
    · exact List.mem_append_right _ (List.mem_append_right _ (List.mem_append_right _ (List.mem_append_right _ (List.mem_append_right _ (List.mem_append_left _ hmemD)))))
    · exact houtD
  · intro hdt
    have hf := htrF hdt
    simpa [hdt] using hf
  · cases hcf : condFit p with
    | false =>
        simp only [hcf, Bool.false_eq_true, if_false]
        exact List.mem_append_right _ (List.mem_append_right _ (List.mem_append_right _ (List.mem_append_right _ (List.mem_append_right _ (List.mem_append_right _ (List.mem_append_right _ (List.mem_append_right _ (List.mem_append_right _ (List.mem_append_right _ (List.mem_append_left _ (hevF hcf).1))))))))))
    | true =>
        simp only [hcf, if_true]
        exact List.mem_append_right _ (List.mem_append_right _ (List.mem_append_right _ (List.mem_append_right _ (List.mem_append_right _ (List.mem_append_right _ (List.mem_append_right _ (List.mem_append_right _ (List.mem_append_right _ (List.mem_append_right _ (List.mem_append_left _ (hevT hcf).1))))))))))
  · intro hex
    obtain ⟨xyT, heqT, houtT, hmemT⟩ := hexT hex
    subst houtT
    refine ⟨xyT.1, xyT.2, List.mem_append_right _ (List.mem_append_right _ (List.mem_append_right _ (List.mem_append_right _ (List.mem_append_left _ hmemT)))), ?_, ?_⟩
    · intro hcf
      obtain ⟨hfitEnv, hfitMem⟩ := hfitT hcf
      exact ⟨List.mem_append_right _ (List.mem_append_right _ (List.mem_append_right _ (List.mem_append_right _ (List.mem_append_right _ (List.mem_append_right _ (List.mem_append_right _ (List.mem_append_right _ (List.mem_append_left _ hfitMem)))))))), List.mem_append_right _ (List.mem_append_right _ (List.mem_append_right _ (List.mem_append_right _ (List.mem_append_right _ (List.mem_append_right _ (List.mem_append_right _ (List.mem_append_right _ (List.mem_append_right _ (List.mem_append_right _ (List.mem_append_left _ (hevT hcf).2))))))))))⟩
    · intro hcf
      obtain ⟨hfitEnv, hfitMem⟩ := hfitF hcf
      exact ⟨List.mem_append_right _ (List.mem_append_right _ (List.mem_append_right _ (List.mem_append_right _ (List.mem_append_right _ (List.mem_append_right _ (List.mem_append_right _ (List.mem_append_right _ (List.mem_append_left _ hfitMem)))))))), List.mem_append_right _ (List.mem_append_right _ (List.mem_append_right _ (List.mem_append_right _ (List.mem_append_right _ (List.mem_append_right _ (List.mem_append_right _ (List.mem_append_right _ (List.mem_append_right _ (List.mem_append_right _ (List.mem_append_left _ (hevF hcf).2))))))))))⟩
  · intro hex
    obtain ⟨xyF, heqF, houtF, hmemF⟩ := hexF hex
    subst houtF
    have hcf : condFit p = false := by simp [condFit, hex]
    obtain ⟨hfitEnv, hfitMem⟩ := hfitF hcf
    exact ⟨xyF.1, xyF.2, List.mem_append_right _ (List.mem_append_right _ (List.mem_append_right _ (List.mem_append_right _ (List.mem_append_left _ hmemF)))), List.mem_append_right _ (List.mem_append_right _ (List.mem_append_right _ (List.mem_append_right _ (List.mem_append_right _ (List.mem_append_right _ (List.mem_append_right _ (List.mem_append_right _ (List.mem_append_left _ hfitMem)))))))),
      List.mem_append_right _ (List.mem_append_right _ (List.mem_append_right _ (List.mem_append_right _ (List.mem_append_right _ (List.mem_append_right _ (List.mem_append_right _ (List.mem_append_right _ (List.mem_append_right _ (List.mem_append_right _ (List.mem_append_left _ (hevF hcf).2))))))))))⟩

/-! ### Keys of the returned metric dictionaries -/

theorem pyDictInsert_fresh (d : List (String × Val)) (kv : String × Val)
    (h : ∀ e ∈ d, e.1 ≠ kv.1) : pyDictInsert d kv = d ++ [kv] := by
  have hA : ¬ (d.any fun e => e.1 == kv.1) = true := by
    simp only [List.any_eq_true, beq_iff_eq, not_exists, not_and]
    exact h
  unfold pyDictInsert
  rw [if_neg hA]

theorem pyDict_go (l acc : List (String × Val))
    (h : ((acc ++ l).map Prod.fst).Nodup) :
    l.foldl pyDictInsert acc = acc ++ l := by
  induction l generalizing acc with
  | nil => simp
  | cons x xs ih =>
      rw [List.foldl_cons]
      have hx : x.1 ∉ acc.map Prod.fst := by
        rw [List.map_append] at h
        have hd := (List.nodup_append.mp h).2.2
        intro hmem
        exact hd hmem (by simp)
      have hfresh : ∀ e ∈ acc, e.1 ≠ x.1 :=
        fun e he heq => hx (heq ▸ List.mem_map_of_mem Prod.fst he)
      rw [pyDictInsert_fresh _ _ hfresh, ih (acc ++ [x]) (by simpa using h)]
      simp

/-- A Python dict built from pairs with distinct keys keeps them all in
order. -/
theorem pyDict_eq_self (l : List (String × Val))
    (h : (l.map Prod.fst).Nodup) : pyDict l = l := by
  unfold pyDict
  simpa using pyDict_go l [] (by simpa using h)

/-- `dict(zip(names, scores))` is keyed exactly by `names` when the names are
distinct and there are enough scores. -/
theorem pyDict_zip_keys (names : List String) (vals : List Val)
    (h1 : names.Nodup) (h2 : names.length ≤ vals.length) :
    (pyDict (names.zip vals)).map Prod.fst = names := by
  have hmap : (names.zip vals).map Prod.fst = names :=
    List.map_fst_zip names vals h2
  rw [pyDict_eq_self _ (by rw [hmap]; exact h1), hmap]

/-! ### Concrete sample runs used by the witnesses -/

/-- A sample parameter set: detrending on, no exogenous variables. -/
def pA : Params :=
  { dataset := "uci", train := true, detrend := true, exogenous := false,
    input_sequence_length := 5, output_sequence_length := 2, layers := 1,
    out_channels := 8, kernel_size := 2, dilation := 1, l2_reg := 1/100,
    tcn_type := "tcn", load := none, learning_rate := 1/1000, batch_size := 32,
    epochs := 3, grid_search := false, observer := "mongodb", add_config := none }

/-- `pA` with detrending off (the loader still supplies trend values). -/
def pB : Params := { pA with detrend := false }

/-- `pA` with exogenous variables on but a non-conditional `tcn_type`. -/
def pC : Params := { pA with exogenous := true }

/-- A sample environment in which every library call succeeds. -/
def envA : Env :=
  { load_data := fun _ =>
      .ok { scaler := ⟨0⟩, train := .raw 0, test := .raw 1,
            trend := .pairV (.raw 2) (.raw 3) },
    get_rnn_inputs := fun _ => .ok (.raw 10, .raw 11),
    build_model := fun _ _ => .ok ⟨0⟩,
    load_weights := fun _ _ => .ok (),
    compileModel := fun _ _ => .ok (),
    fit := fun _ _ => .ok ⟨0⟩,
    save_weights := fun _ _ => .ok (),
    evaluate := fun _ => .ok [⟨0⟩, ⟨1⟩],
    validation_data := fun _ => [.raw 20, .raw 21],
    model_metrics := fun _ => [.pyFunc "nrmse", .pyStr "mae"],
    metricsModule := [.pyFunc "nrmse", .pyStr "mae"],
    shape1 := fun _ => 3,
    shapeLast := fun _ => 4,
    config_weights := "weights",
    config_db := "db",
    time_str := "100.0",
    samples_per_day := fun _ => 96 }

/-- `envA` with a failing dataset loader. -/
def envErr : Env := { envA with load_data := fun _ => .error (.lib 7) }

def okD {ε α : Type} (x : Except ε α) (dflt : α) : α :=
  match x with
  | .ok a => a
  | .error _ => dflt

def resA : MainResult := okD (run pA envA).1 ([], [], "")
def trA : List Event := (run pA envA).2

theorem runA_eq : run pA envA = (Except.ok resA, trA) := rfl

def resB : MainResult := okD (run pB envA).1 ([], [], "")
def trB : List Event := (run pB envA).2

theorem runB_eq : run pB envA = (Except.ok resB, trB) := rfl

def resC : MainResult := okD (run pC envA).1 ([], [], "")
def trC : List Event := (run pC envA).2

theorem runC_eq : run pC envA = (Except.ok resC, trC) := rfl

/-! ### The claims -/

/-- Claim C2: the dataset adapter picks the gefcom2014 loader exactly for the
name "gefcom" and the uci_single_households loader for every other name, and
never fails (lines 41-45). -/
theorem c2_dataset_adapter :
    ∀ name : String,
      (selectDataset name = DatasetId.gefcom2014 ↔ name = "gefcom") ∧
      (selectDataset name = DatasetId.uci_single_households ↔ name ≠ "gefcom") := by
  intro name
  by_cases h : name = "gefcom" <;> simp [selectDataset, h]

/-- Claim C4: the `__main__` block runs the grid-search routine exactly when
the grid_search flag is set and the single-experiment routine otherwise,
passing the same main function, metric logger, config function, database
name and observer type in both cases (lines 165-184). -/
theorem c4_runner_dispatch :
    ∀ (p : Params) (env : Env),
      ((scriptMain p env).isGrid = p.grid_search) ∧
      ((scriptMain p env).args.f_main = mainM p) ∧
      ((scriptMain p env).args.f_metrics = MetricsFn.log_metrics) ∧
      ((scriptMain p env).args.observer_type = p.observer) ∧
      ((scriptMain p env).args.experimentclass = ExperimentClass.DTSExperiment) ∧
      ((scriptMain p env).args.f_config = p.add_config) ∧
      ((scriptMain p env).args.db_name = env.config_db) ∧
      ((scriptMain p env).args.ex_name =
        if p.grid_search then "tcn_grid_search" else "tcn") := by
  intro p env
  cases hg : p.grid_search <;>
    simp [scriptMain, hg, RunnerCall.isGrid, RunnerCall.args]

/-- Claim C7: the parameter mapping is immutable after parsing: no event of
any run writes a parameter; every parameter access in the trace is a read. -/
theorem c7_params_immutable :
    ∀ (p : Params) (env : Env) (e : Event), e ∈ (run p env).2 →
      ∀ k, e ≠ Event.paramWrite k :=
  fun p env e he => (run_events p env e he).1

theorem c7_params_immutable_witness :
    Event.logInfo CallSite.logParams ≠ Event.paramWrite "dataset" :=
  c7_params_immutable pA envA (Event.logInfo CallSite.logParams)
    (by decide) "dataset"

/-- Claim C8: no call site ever executes twice (no retries), and any
exception recorded by a library call in the trace is returned unchanged as
the run's outcome (no handler, no recovery). -/
theorem c8_no_recovery_no_retry :
    ∀ (p : Params) (env : Env),
      (sitesOf (run p env).2).Nodup ∧
      (∀ e ∈ (run p env).2, ∀ err, errOf e = some err →
        (run p env).1 = Except.error err) :=
  fun p env =>
    ⟨List.Sublist.nodup (run_sites p env) (by decide), run_errP p env⟩

theorem c8_no_recovery_no_retry_witness :
    (run pA envErr).1 = Except.error (Err.lib 7) :=
  (c8_no_recovery_no_retry pA envErr).2
    (Event.loadDataCall (loadArgsFor pA) (Except.error (Err.lib 7)))
    (by decide) (Err.lib 7) rfl

/-- Claim C9: when the detrend parameter is false the trend supplied by the
loader is discarded, so every inverse transform of the run - the test-set one
included - is called with no trend. -/
theorem c9_trend_discarded_when_detrend_off :
    ∀ (p : Params) (env : Env), p.detrend = false →
      ∀ s a rr, Event.evalCall s a rr ∈ (run p env).2 →
        a.fn_inverse.trend = TrendVar.noneV :=
  fun p env hdt s a rr he =>
    ((run_events p env _ he).2.2 s a rr rfl).2.2 hdt

theorem c9_trend_discarded_when_detrend_off_witness :
    ({ data := EvalData.testPlain (Arr.raw 10) (Arr.raw 11),
       fn_inverse := { datasetId := DatasetId.uci_single_households,
                       scaler := ⟨0⟩, trend := TrendVar.noneV },
       fn_plot := some { samples_per_day := 96, save_at := none } }
      : EvalArgs).fn_inverse.trend = TrendVar.noneV :=
  c9_trend_discarded_when_detrend_off pB envA rfl CallSite.evalTestPlain _
    (Except.ok [⟨0⟩, ⟨1⟩]) (by decide)

/-- What holds of the `model.fit` calls of every completed run: exactly one
branch's fit site fired, and every fit call used validation split 1/10, the
configured batch size and epochs, and the patience-50 early-stopping
callback on validation loss. -/
def C3Concl (p : Params) (tr : List Event) : Prop :=
  (∃ s m a h, Event.fitCall s m a h ∈ tr ∧
     s = (if condFit p then CallSite.fitCond else CallSite.fitPlain)) ∧
  (∀ s m a h, Event.fitCall s m a h ∈ tr →
    a.validation_split = 1/10 ∧ a.batch_size = p.batch_size ∧
    a.epochs = p.epochs ∧
    a.callbacks = [Callback.earlyStopping 50 "val_loss"] ∧
    (s = CallSite.fitCond ∨ s = CallSite.fitPlain))

/-- Claim C3: every completed run trains through the generic fit routine with
validation split 0.1, the parameter set's batch size and epoch count, and an
early-stopping callback monitoring val_loss with patience 50, in both the
exogenous-conditional branch and the plain branch (lines 117-134). -/
theorem c3_fit_configuration :
    ∀ (p : Params) (env : Env) (r : MainResult) (tr : List Event),
      run p env = (.ok r, tr) → C3Concl p tr := by
  intro p env r tr h
  obtain ⟨d, xtr, ytr0, trendF, mdl, hist, vsc, tsc, hld, hm1, hm2, hbuild,
    hcomp, hsvEq, hsvMem, hr, htrT, htrF, hval, hexT, hexF⟩ :=
    run_ok_shape p env r tr h
  constructor
  · cases hex : p.exogenous with
    | false =>
        obtain ⟨xte, yte0, hrnn, hfitMem, hevMem⟩ := hexF hex
        exact ⟨CallSite.fitPlain, mdl, _, Except.ok hist, hfitMem,
          by simp [condFit, hex]⟩
    | true =>
        obtain ⟨xte, yte0, hrnn, hcondT, hcondF⟩ := hexT hex
        cases hcf : condFit p with
        | true =>
            obtain ⟨hfitMem, hevMem⟩ := hcondT hcf
            exact ⟨CallSite.fitCond, mdl, _, Except.ok hist, hfitMem,
              by simp [hcf]⟩
        | false =>
            obtain ⟨hfitMem, hevMem⟩ := hcondF hcf
            exact ⟨CallSite.fitPlain, mdl, _, Except.ok hist, hfitMem,
              by simp [hcf]⟩
  · intro s m a hh he
    have he' : Event.fitCall s m a hh ∈ (run p env).2 := by rw [h]; exact he
    obtain ⟨hv, hb, hep, hc, hs, _, _⟩ :=
      (run_events p env _ he').2.1 s m a hh rfl
    exact ⟨hv, hb, hep, hc, hs⟩

theorem c3_fit_configuration_witness : C3Concl pA trA :=
  c3_fit_configuration pA envA resA trA runA_eq

/-- What holds of the weight saving of every completed run. -/
def C5Concl (p : Params) (env : Env) (r : MainResult) (tr : List Event) : Prop :=
  ∃ mdl, env.save_weights mdl (weightsPathFor p env) = Except.ok () ∧
    Event.saveWeightsCall mdl (weightsPathFor p env) (Except.ok ()) ∈ tr ∧
    r.2.2 = weightsPathFor p env ∧
    weightsPathFor p env =
      pyPathJoin env.config_weights
        (p.tcn_type ++ "_" ++ p.dataset ++ "_" ++ env.time_str)

/-- Claim C5: every completed run saves the model's weights to the path built
from the configured weights directory, the tcn_type parameter, the dataset
name and the current time, and main returns exactly that path as its third
result (lines 139-143 and 162). -/
theorem c5_weights_file :
    ∀ (p : Params) (env : Env) (r : MainResult) (tr : List Event),
      run p env = (.ok r, tr) → C5Concl p env r tr := by
  intro p env r tr h
  obtain ⟨d, xtr, ytr0, trendF, mdl, hist, vsc, tsc, hld, hm1, hm2, hbuild,
    hcomp, hsvEq, hsvMem, hr, htrT, htrF, hval, hexT, hexF⟩ :=
    run_ok_shape p env r tr h
  exact ⟨mdl, hsvEq, hsvMem, by rw [hr], rfl⟩

theorem c5_weights_file_witness : C5Concl pA envA resA trA :=
  c5_weights_file pA envA resA trA runA_eq

/-- What holds of the returned metric dictionaries of every completed run. -/
def C6Concl (env : Env) (r : MainResult) (tr : List Event) : Prop :=
  ∃ mdl vsc tsc sv av st at2,
    Event.evalCall sv av (Except.ok vsc) ∈ tr ∧
    (sv = CallSite.evalValCond ∨ sv = CallSite.evalValPlain) ∧
    Event.evalCall st at2 (Except.ok tsc) ∈ tr ∧
    (st = CallSite.evalTestCond ∨ st = CallSite.evalTestPlain) ∧
    (∃ ca, Event.compileCall mdl ca (Except.ok ()) ∈ tr) ∧
    r.1 = pyDict ((metricsNamesOf env mdl).zip vsc) ∧
    r.2.1 = pyDict ((metricsNamesOf env mdl).zip tsc) ∧
    ((metricsNamesOf env mdl).Nodup →
      (metricsNamesOf env mdl).length ≤ vsc.length →
      r.1.map Prod.fst = metricsNamesOf env mdl) ∧
    ((metricsNamesOf env mdl).Nodup →
      (metricsNamesOf env mdl).length ≤ tsc.length →
      r.2.1.map Prod.fst = metricsNamesOf env mdl)

/-- Claim C6: every completed run returns one metrics mapping per evaluation
pass - one from the validation pass and one from the test pass - keyed by the
names of the compiled model's metrics (lines 159-162). -/
theorem c6_metrics_results :
    ∀ (p : Params) (env : Env) (r : MainResult) (tr : List Event),
      run p env = (.ok r, tr) → C6Concl env r tr := by
  intro p env r tr h
  obtain ⟨d, xtr, ytr0, trendF, mdl, hist, vsc, tsc, hld, hm1, hm2, hbuild,
    hcomp, hsvEq, hsvMem, hr, htrT, htrF, hval, hexT, hexF⟩ :=
    run_ok_shape p env r tr h
  have hval' : ∃ sv av, Event.evalCall sv av (Except.ok vsc) ∈ tr ∧
      (sv = CallSite.evalValCond ∨ sv = CallSite.evalValPlain) := by
    cases hcf : condFit p with
    | true =>
        rw [hcf] at hval
        exact ⟨_, _, by simpa using hval, Or.inl rfl⟩
    | false =>
        rw [hcf] at hval
        exact ⟨_, _, by simpa using hval, Or.inr rfl⟩
  obtain ⟨sv, av, hvem, hvs⟩ := hval'
  have htest' : ∃ st at2, Event.evalCall st at2 (Except.ok tsc) ∈ tr ∧
      (st = CallSite.evalTestCond ∨ st = CallSite.evalTestPlain) := by
    cases hex : p.exogenous with
    | false =>
        obtain ⟨xte, yte0, hrnn, hfitMem, hevMem⟩ := hexF hex
        exact ⟨_, _, hevMem, Or.inr rfl⟩
    | true =>
        obtain ⟨xte, yte0, hrnn, hcondT, hcondF⟩ := hexT hex
        cases hcf : condFit p with
        | true => exact ⟨_, _, (hcondT hcf).2, Or.inl rfl⟩
        | false => exact ⟨_, _, (hcondF hcf).2, Or.inr rfl⟩
  obtain ⟨st, at2, htem, hts⟩ := htest'
  refine ⟨mdl, vsc, tsc, sv, av, st, at2, hvem, hvs, htem, hts,
    ⟨_, hcomp⟩, by rw [hr], by rw [hr], ?_, ?_⟩
  · intro hnd hlen
    rw [show r.1 = pyDict ((metricsNamesOf env mdl).zip vsc) from by rw [hr]]
    exact pyDict_zip_keys _ _ hnd hlen
  · intro hnd hlen
    rw [show r.2.1 = pyDict ((metricsNamesOf env mdl).zip tsc) from by rw [hr]]
    exact pyDict_zip_keys _ _ hnd hlen

theorem c6_metrics_results_witness : C6Concl envA resA trA :=
  c6_metrics_results pA envA resA trA runA_eq

/-- What holds of every completed run with the exogenous flag set but a
tcn_type other than conditional_tcn: the windows are built multivariate and
the targets reduced to their first feature, yet fit and the test evaluation
receive the input windows alone, without the exogenous arrays. -/
def C10Concl (p : Params) (tr : List Event) : Prop :=
  ∃ dtrain dtest xtr ytr0 xte yte0 mdl hist,
    Event.rnnCall CallSite.rnnTrain
      { data := dtrain, window_size := p.input_sequence_length,
        horizon := p.output_sequence_length, shuffle := true,
        multivariate_output := true } (Except.ok (xtr, ytr0)) ∈ tr ∧
    Event.rnnCall CallSite.rnnTestExog
      { data := dtest, window_size := p.input_sequence_length,
        horizon := p.output_sequence_length, shuffle := false,
        multivariate_output := true } (Except.ok (xte, yte0)) ∈ tr ∧
    Event.fitCall CallSite.fitPlain mdl
      { x := FitX.plain xtr, y := Arr.sliceFirstFeature ytr0,
        validation_split := 1/10, batch_size := p.batch_size,
        epochs := p.epochs,
        callbacks := [Callback.earlyStopping 50 "val_loss"],
        verbose := 2 } (Except.ok hist) ∈ tr ∧
    (∃ aEv rEv, Event.evalCall CallSite.evalTestPlain aEv rEv ∈ tr ∧
      aEv.data = EvalData.testPlain xte (Arr.sliceFirstFeature yte0))

/-- Claim C10: exogenous variables condition the model only when tcn_type is
conditional_tcn; with the exogenous flag set but another tcn_type, the
windows are built multivariate and the targets sliced to their first
feature, yet fit and the test evaluation are called with the input windows
alone (lines 79-98, 121-134, 152-157). -/
theorem c10_exogenous_ignored_without_conditional :
    ∀ (p : Params) (env : Env) (r : MainResult) (tr : List Event),
      run p env = (.ok r, tr) → p.exogenous = true →
      p.tcn_type ≠ "conditional_tcn" → C10Concl p tr := by
  intro p env r tr h hex htt
  obtain ⟨d, xtr, ytr0, trendF, mdl, hist, vsc, tsc, hld, hm1, hm2, hbuild,
    hcomp, hsvEq, hsvMem, hr, htrT, htrF, hval, hexT, hexF⟩ :=
    run_ok_shape p env r tr h
  have hcf : condFit p = false := by simp [condFit, hex, htt]
  obtain ⟨xte, yte0, hrnn, hcondT, hcondF⟩ := hexT hex
  obtain ⟨hfitMem, hevMem⟩ := hcondF hcf
  rw [hex] at hm2
  exact ⟨d.train, d.test, xtr, ytr0, xte, yte0, mdl, hist, hm2, hrnn,
    hfitMem, ⟨_, _, hevMem, rfl⟩⟩

theorem c10_exogenous_ignored_without_conditional_witness : C10Concl pC trC :=
  c10_exogenous_ignored_without_conditional pC envA resC trC runC_eq rfl
    (by decide)

/-- What holds of the two evaluation passes of every completed run: both
inverse-transform with the fitted scaler before metrics are computed, but the
trend is re-added only in the test pass - the validation pass always passes
trend=None, and the test pass passes the windowed trend exactly when
detrending is enabled. -/
def C1Concl (p : Params) (env : Env) (tr : List Event) : Prop :=
  ∃ d sv av rv st at2 rt,
    env.load_data (loadArgsFor p) = Except.ok d ∧
    Event.evalCall sv av rv ∈ tr ∧
    (sv = CallSite.evalValCond ∨ sv = CallSite.evalValPlain) ∧
    av.fn_inverse.scaler = d.scaler ∧
    av.fn_inverse.trend = TrendVar.noneV ∧
    Event.evalCall st at2 rt ∈ tr ∧
    (st = CallSite.evalTestCond ∨ st = CallSite.evalTestPlain) ∧
    at2.fn_inverse.scaler = d.scaler ∧
    (p.detrend = false → at2.fn_inverse.trend = TrendVar.noneV) ∧
    (p.detrend = true → ∃ t1 xtd w,
      at2.fn_inverse.trend = TrendVar.arrV w ∧
      Event.rnnCall CallSite.rnnTrend
        { data := t1, window_size := p.input_sequence_length,
          horizon := p.output_sequence_length, shuffle := false,
          multivariate_output := false } (Except.ok (xtd, w)) ∈ tr) ∧
    (∀ s' a' r', Event.evalCall s' a' r' ∈ tr →
      (s' = CallSite.evalValCond ∨ s' = CallSite.evalValPlain) →
      a'.fn_inverse.trend = TrendVar.noneV)

/-- Claim C1 (amended): both evaluation passes inverse-transform predictions
with the fitted scaler before computing metrics, but the removed trend is
re-added only in the test-set evaluation - the validation-set evaluation
always passes trend=None (line 148), while the test-set evaluation passes the
windowed trend exactly when detrending is enabled (lines 101-106, 149). -/
theorem c1_inverse_transform_passes :
    ∀ (p : Params) (env : Env) (r : MainResult) (tr : List Event),
      run p env = (.ok r, tr) → C1Concl p env tr := by
  intro p env r tr h
  obtain ⟨d, xtr, ytr0, trendF, mdl, hist, vsc, tsc, hld, hm1, hm2, hbuild,
    hcomp, hsvEq, hsvMem, hr, htrT, htrF, hval, hexT, hexF⟩ :=
    run_ok_shape p env r tr h
  have hval' : ∃ sv av, Event.evalCall sv av (Except.ok vsc) ∈ tr ∧
      (sv = CallSite.evalValCond ∨ sv = CallSite.evalValPlain) ∧
      av.fn_inverse.scaler = d.scaler ∧
      av.fn_inverse.trend = TrendVar.noneV := by
    cases hcf : condFit p with
    | true =>
        rw [hcf] at hval
        exact ⟨_, _, by simpa using hval, Or.inl rfl, rfl, rfl⟩
    | false =>
        rw [hcf] at hval
        exact ⟨_, _, by simpa using hval, Or.inr rfl, rfl, rfl⟩
  obtain ⟨sv, av, hvem, hvs, hvsc, hvtr⟩ := hval'
  have htest' : ∃ st at2, Event.evalCall st at2 (Except.ok tsc) ∈ tr ∧
      (st = CallSite.evalTestCond ∨ st = CallSite.evalTestPlain) ∧
      at2.fn_inverse.scaler = d.scaler ∧
      at2.fn_inverse.trend = trendF := by
    cases hex : p.exogenous with
    | false =>
        obtain ⟨xte, yte0, hrnn, hfitMem, hevMem⟩ := hexF hex
        exact ⟨_, _, hevMem, Or.inr rfl, rfl, rfl⟩
    | true =>
        obtain ⟨xte, yte0, hrnn, hcondT, hcondF⟩ := hexT hex
        cases hcf : condFit p with
        | true => exact ⟨_, _, (hcondT hcf).2, Or.inl rfl, rfl, rfl⟩
        | false => exact ⟨_, _, (hcondF hcf).2, Or.inr rfl, rfl, rfl⟩
  obtain ⟨st, at2, htem, hts, htsc, httr⟩ := htest'
  refine ⟨d, sv, av, Except.ok vsc, st, at2, Except.ok tsc, hld, hvem, hvs,
    hvsc, hvtr, htem, hts, htsc, ?_, ?_, ?_⟩
  · intro hdt
    rw [httr]
    exact htrF hdt
  · intro hdt
    obtain ⟨t0, t1, xtd, ytd, hpair, hmemD, htf⟩ := htrT hdt
    exact ⟨t1, xtd, ytd, by rw [httr, htf], hmemD⟩
  · intro s' a' r' he hval2
    have he' : Event.evalCall s' a' r' ∈ (run p env).2 := by rw [h]; exact he
    exact ((run_events p env _ he').2.2 s' a' r' rfl).2.1 hval2 |>.1

theorem c1_inverse_transform_passes_witness : C1Concl pA envA trA :=
  c1_inverse_transform_passes pA envA resA trA runA_eq

/-- Claim C1 as stated is false: in the sample detrending run the
validation-set evaluation's inverse transform is called with trend=None, so
the removed trend is not re-added there. -/
theorem c1_counterexample :
    pA.detrend = true ∧
    ∃ a r, Event.evalCall CallSite.evalValPlain a r ∈ (run pA envA).2 ∧
      a.fn_inverse.trend = TrendVar.noneV := by
  refine ⟨rfl,
    { data := EvalData.valList [Arr.raw 20],
      fn_inverse := { datasetId := DatasetId.uci_single_households,
                      scaler := ⟨0⟩, trend := TrendVar.noneV },
      fn_plot := none },
    Except.ok [⟨0⟩, ⟨1⟩], by decide, rfl⟩

end DTS
